import Mathlib

/-!
Verification of the on-demand image derivative pipeline of the media-asset
management API (process controller: resize / convert / thumbnail / info / crop,
upload-time thumbnail generation, and file deletion).

The JavaScript controllers are shallowly embedded as pure Lean functions over
an explicit filesystem state.  Query-string parameters are `Option String`;
`parseInt` is modelled including its `NaN` result, and JavaScript truthiness
(`null`, `NaN` and `0` are falsy) is modelled explicitly, since the
controllers' validation logic depends on it.
-/

namespace Zot

/-- A JavaScript numeric value as produced by the controllers:
`null` (parameter absent → `width ? parseInt(width) : null`),
`NaN` (from `parseInt` on a non-numeric string), or an integer. -/
inductive JVal
  | null
  | nan
  | num (n : Int)
deriving DecidableEq, Repr

/-- JavaScript truthiness for the values above: `null`, `NaN` and `0` are falsy. -/
def jsTruthy : JVal → Bool
  | .null => false
  | .nan => false
  | .num n => n != 0

/-- JavaScript `v < k` where `v` is one of our values and `k` an integer literal:
`NaN` comparisons are always false, `null` coerces to `0`. -/
def jsLt : JVal → Int → Bool
  | .null, k => 0 < k
  | .nan, _ => false
  | .num n, k => n < k

/-- JavaScript `v > k`: `NaN` comparisons are always false, `null` coerces to `0`. -/
def jsGt : JVal → Int → Bool
  | .null, k => k < 0
  | .nan, _ => false
  | .num n, k => k < n

/-- Truthiness of a raw query parameter (absent and empty string are falsy). -/
def truthyOpt : Option String → Bool
  | none => false
  | some s => s != ""

/-- Decimal digit character for `n % 10`. -/
def decChar (n : Nat) : Char := Char.ofNat (48 + n % 10)

/-- Fuel-driven most-significant-digit-first decimal rendering
(structurally recursive so that it reduces in the kernel). -/
def decAux : Nat → Nat → List Char → List Char
  | 0, _, acc => acc
  | f + 1, n, acc => if n < 10 then decChar n :: acc else decAux f (n / 10) (decChar n :: acc)

/-- Decimal digit list of a natural number, most significant digit first. -/
def decStr (n : Nat) : List Char := decAux (n + 1) n []

/-- Reference (well-founded) form of `decStr`, used in proofs. -/
def decList (n : Nat) : List Char :=
  if n < 10 then [decChar n] else decList (n / 10) ++ [decChar n]
decreasing_by exact Nat.div_lt_self (by omega) (by omega)

/-- Decimal string of a natural number (the model of JS number stringification). -/
def natS (n : Nat) : String := ⟨decStr n⟩

/-- Decimal string of an integer (JS template interpolation of a number). -/
def intS (n : Int) : String := if n < 0 then "-" ++ natS n.natAbs else natS n.natAbs

/-- JS string interpolation `${v}` of a parsed numeric value. -/
def jvalS : JVal → String
  | .num n => intS n
  | .nan => "NaN"
  | .null => "null"

/-- JS `${v || 'auto'}` as used for the resize cache filename: falsy values
(`null`, `NaN`, `0`) render as `"auto"`. -/
def jvalDim (v : JVal) : String := if jsTruthy v then jvalS v else "auto"

/-- Model of JavaScript `parseInt` restricted to the forms the API receives:
an optional leading `'-'` followed by leading decimal digits; anything that
does not start with a digit (after the optional sign) yields `NaN`.
(Leading whitespace, an explicit `'+'` and hex prefixes are not modelled.) -/
def leadDigitsGo : List Char → Nat → Nat
  | [], acc => acc
  | c :: rest, acc => if c.isDigit then leadDigitsGo rest (acc * 10 + (c.toNat - 48)) else acc

/-- Leading-digit run of a character list, `none` when the first char is not a digit. -/
def leadDigits : List Char → Option Nat
  | [] => none
  | c :: rest => if c.isDigit then some (leadDigitsGo rest (c.toNat - 48)) else none

/-- `parseInt` model (see `leadDigits`). -/
def jsParseInt (s : String) : JVal :=
  match s.data with
  | '-' :: rest =>
    match leadDigits rest with
    | some n => .num (-(n : Int))
    | none => .nan
  | l =>
    match leadDigits l with
    | some n => .num (n : Int)
    | none => .nan

/-- `width ? parseInt(width) : null` — parse a raw query parameter, absent or
empty (falsy) strings giving `null`. -/
def parseOptParam (p : Option String) : JVal :=
  if truthyOpt p then jsParseInt (p.getD "") else .null

/-- `const q = parseInt(quality)` where `quality` has a destructuring default:
the default applies only when the parameter is absent. -/
def parseWithDefault (p : Option String) (d : Int) : JVal :=
  match p with
  | none => .num d
  | some s => jsParseInt s

/-- ASCII lowercase of one character (`String.prototype.toLowerCase` model). -/
def lowerChar (c : Char) : Char :=
  if 'A' ≤ c ∧ c ≤ 'Z' then Char.ofNat (c.toNat + 32) else c

/-- `s.toLowerCase()`. -/
def toLowerS (s : String) : String := ⟨s.data.map lowerChar⟩

/-- `path.parse(filename).name`: the part of the basename before its last dot
(dot-file edge cases are not needed by the callers, which pass stored upload
filenames). -/
def dropLastExt (l : List Char) : List Char :=
  match l.reverse.dropWhile (fun c => c != '.') with
  | [] => l
  | _ :: rest => rest.reverse

/-- Basename: everything after the last `'/'`. -/
def afterLastSlash (l : List Char) : List Char :=
  (l.reverse.takeWhile (fun c => c != '/')).reverse

/-- `path.parse(s).name`. -/
def stemOf (s : String) : String := ⟨dropLastExt (afterLastSlash s.data)⟩

/-- `path.dirname` (POSIX-style, no trailing-slash edge cases). -/
def dirnameOf (p : String) : String :=
  match p.data.reverse.dropWhile (fun c => c != '/') with
  | [] => "."
  | _ :: rest => ⟨rest.reverse⟩

/-- `path.join a b`. -/
def pathJoin (a b : String) : String := a ++ "/" ++ b

/-- An image as the engine sees it: decoded pixel dimensions plus an abstract
content identifier standing for the byte payload. -/
structure Img where
  width : Nat
  height : Nat
  data : Nat
deriving DecidableEq, Repr

/-- Filesystem state: files (path ↦ content) and the set of directories. -/
structure FS where
  files : List (String × Img)
  dirs : List String
deriving DecidableEq, Repr

/-- `fs.existsSync` for a file path / read of its content. -/
def FS.read (st : FS) (p : String) : Option Img := st.files.lookup p

/-- Write (create or overwrite) a file. -/
def FS.write (st : FS) (p : String) (b : Img) : FS :=
  { st with files := (p, b) :: st.files.filter (fun e => e.1 != p) }

/-- `fs.unlinkSync`. -/
def FS.remove (st : FS) (p : String) : FS :=
  { st with files := st.files.filter (fun e => e.1 != p) }

/-- `fs.mkdirSync(dir, { recursive: true })` guarded by `fs.existsSync(dir)`. -/
def FS.ensureDir (st : FS) (d : String) : FS :=
  if st.dirs.contains d then st else { st with dirs := d :: st.dirs }

/-- The columns of the `files` table the process controllers read. -/
structure FileRec where
  id : Nat
  user_id : Nat
  filename : String
  path : String
  file_type : String
  thumbnail_path : Option String
deriving DecidableEq, Repr

/-- `File.findById(id, userId)`: `SELECT * FROM files WHERE id = ? AND user_id = ?`
(the controllers always pass `req.user.id`, so the lookup is ownership-scoped). -/
def findById (db : List FileRec) (id userId : Nat) : Option FileRec :=
  db.find? (fun r => r.id == id && r.user_id == userId)

/-- Resize cache filename:
`` `${name}_${w || 'auto'}x${h || 'auto'}_q${q}.${ext}` ``. -/
def resizeCacheName (stem : String) (w h q : JVal) (ext : String) : String :=
  stem ++ "_" ++ jvalDim w ++ "x" ++ jvalDim h ++ "_q" ++ jvalS q ++ "." ++ ext

/-- Crop cache filename:
`` `${name}_crop_${cropX}_${cropY}_${cropWidth}_${cropHeight}_q${q}.jpg` ``. -/
def cropCacheName (stem : String) (x y w h q : JVal) : String :=
  stem ++ "_crop_" ++ jvalS x ++ "_" ++ jvalS y ++ "_" ++ jvalS w ++ "_" ++
    jvalS h ++ "_q" ++ jvalS q ++ ".jpg"

/-- Thumbnail cache filename: `` `${name}_thumb_${s}x${s}_q${q}.jpg` ``. -/
def thumbCacheName (stem : String) (s q : JVal) : String :=
  stem ++ "_thumb_" ++ jvalS s ++ "x" ++ jvalS s ++ "_q" ++ jvalS q ++ ".jpg"

/-- Convert cache filename: `` `${name}_converted_q${q}.${format}` ``
(the raw query `format` string, not lowercased). -/
def convertCacheName (stem : String) (q : JVal) (format : String) : String :=
  stem ++ "_converted_q" ++ jvalS q ++ "." ++ format

/-- A nonnegative scale factor as an exact fraction `num / den` (`den ≥ 1`). -/
abbrev Frac := Nat × Nat

/-- Fraction comparison by cross-multiplication (valid for positive
denominators): `a/b ≤ c/d ↔ a*d ≤ c*b`. -/
def fracLe (x y : Frac) : Bool := x.1 * y.2 ≤ y.1 * x.2

/-- Smaller of two fractions. -/
def fracMin (x y : Frac) : Frac := if fracLe x y then x else y

/-- Larger of two fractions. -/
def fracMax (x y : Frac) : Frac := if fracLe x y then y else x

/-- `round (a * p / q)` (round half up) for naturals with `q ≥ 1`:
`⌊(a*p)/q + 1/2⌋ = (2*a*p + q) / (2*q)`. -/
def roundScale (a : Nat) (r : Frac) : Nat := (2 * a * r.1 + r.2) / (2 * r.2)

/-- Modelled from the spec: the engine's `resize(w, h, { fit: 'inside',
withoutEnlargement: true })` output dimensions (the sharp library itself is an
external dependency, not part of this repository): scale by the largest factor
that fits the image inside the `w`×`h` bounding box (an absent dimension is
unconstrained), capped at 1 so the image is never enlarged; each output
dimension is rounded and is at least one pixel. -/
def insideFit (wSrc hSrc : Nat) (w h : Option Nat) : Nat × Nat :=
  let rw : Frac := match w with
    | some n => (n, wSrc)
    | none => (1, 1)
  let rh : Frac := match h with
    | some n => (n, hSrc)
    | none => (1, 1)
  let r : Frac := fracMin (fracMin (1, 1) rw) rh
  ((roundScale wSrc r).max 1, (roundScale hSrc r).max 1)

/-- Modelled from the spec: `resize(s, s, { fit: 'cover', position: 'center' })`
output dimensions: scale by the smallest factor that covers the `s`×`s` box,
then centre-crop the overflow down to the box. -/
def coverFit (wSrc hSrc : Nat) (s : Nat) : Nat × Nat :=
  let r : Frac := fracMax (s, wSrc) (s, hSrc)
  let sw : Nat := (roundScale wSrc r).max 1
  let sh : Nat := (roundScale hSrc r).max 1
  (min s sw, min s sh)

/-- The pixel operation a controller hands to the engine. -/
inductive SharpOp
  | pass
  | inside (w h : JVal)
  | cover (s : JVal)
  | cut (x y w h : JVal)
deriving DecidableEq, Repr

/-- Output encoder chosen by the controller's `switch` on the format string. -/
inductive OutFmt
  | jpeg
  | png
  | webp
  | gif
deriving DecidableEq, Repr

/-- What a controller passes to the engine: operation, encoder, and the
encoder's quality option (`none` for the `gif()` branch, which takes none). -/
structure EncodeSpec where
  op : SharpOp
  fmt : OutFmt
  quality : Option JVal
deriving DecidableEq, Repr

/-- Numeric code of a parsed value (used only to mix abstract content ids). -/
def jvalCode : JVal → Nat
  | .null => 0
  | .nan => 1
  | .num n => 2 + 2 * n.natAbs + (if n < 0 then 1 else 0)

/-- Numeric code of an operation. -/
def opCode : SharpOp → Nat
  | .pass => 0
  | .inside w h => 1 + Nat.pair (jvalCode w) (jvalCode h) * 4
  | .cover s => 2 + jvalCode s * 4
  | .cut x y w h => 3 + Nat.pair (Nat.pair (jvalCode x) (jvalCode y))
      (Nat.pair (jvalCode w) (jvalCode h)) * 4

/-- Numeric code of an encoder. -/
def fmtCode : OutFmt → Nat
  | .jpeg => 0
  | .png => 1
  | .webp => 2
  | .gif => 3

/-- Numeric code of a full encode request. -/
def specCode (spec : EncodeSpec) : Nat :=
  Nat.pair (opCode spec.op)
    (Nat.pair (fmtCode spec.fmt) (match spec.quality with
      | none => 0
      | some v => 1 + jvalCode v))

/-- Modelled from the spec: the engine (`sharp`, an external library, not part
of this repository) as one decode → operate → encode call.  Decoding fails on
a degenerate source; `resize` rejects a zero/negative/`NaN` dimension;
`extract` rejects a region that is non-positive or extends beyond the decoded
source dimensions (`extract_area: bad extract area`); lossy encoders reject a
quality outside 1–100 (including `NaN`).  The output content id is a
deterministic function of the source content and the full encode request. -/
def sharpRun (src : Img) (spec : EncodeSpec) : Except String Img :=
  if src.width == 0 || src.height == 0 then .error "unsupported image format"
  else
    let out := fun (d : Nat × Nat) => Img.mk d.1 d.2 (Nat.pair src.data (specCode spec))
    let sized : Except String Img :=
      match spec.op with
      | .pass => .ok (out (src.width, src.height))
      | .inside w h =>
        let okDim : JVal → Option (Option Nat) := fun v =>
          match v with
          | .null => some none
          | .nan => none
          | .num n => if 1 ≤ n then some (some n.toNat) else none
        match okDim w, okDim h with
        | some w', some h' => .ok (out (insideFit src.width src.height w' h'))
        | _, _ => .error "invalid resize dimension"
      | .cover s =>
        match s with
        | .num n => if 1 ≤ n then .ok (out (coverFit src.width src.height n.toNat))
                    else .error "invalid resize dimension"
        | _ => .error "invalid resize dimension"
      | .cut x y w h =>
        match x, y, w, h with
        | .num xv, .num yv, .num wv, .num hv =>
          if 0 ≤ xv && 0 ≤ yv && 1 ≤ wv && 1 ≤ hv &&
              xv + wv ≤ (src.width : Int) && yv + hv ≤ (src.height : Int) then
            .ok (out (wv.toNat, hv.toNat))
          else .error "extract_area: bad extract area"
        | _, _, _, _ => .error "extract_area: bad extract area"
    match sized with
    | .error e => .error e
    | .ok img =>
      match spec.quality with
      | none => .ok img
      | some (.num q) => if 1 ≤ q && q ≤ 100 then .ok img else .error "invalid quality"
      | some _ => .error "invalid quality"

/-- Observable effects of one controller call, in program order. -/
inductive Ev
  | dbLookup
  | fsCheck (p : String)
  | mkdir (p : String)
  | cacheCheck (p : String)
  | engine (spec : EncodeSpec)
  | metaProbe
deriving DecidableEq, Repr

/-- HTTP response: a served file, a `{error, …}` JSON with a status, the
image-info JSON, or a success message. -/
inductive Resp
  | file (p : String) (b : Img)
  | json (status : Nat) (error : String)
  | infoJson (b : Img)
  | okMsg (m : String)
deriving DecidableEq, Repr

/-- Result of one controller call: effect trace, response, final filesystem. -/
structure Outcome where
  trace : List Ev
  resp : Resp
  fs : FS
deriving DecidableEq, Repr

/-- `res.sendFile(path.resolve(p))` (paths are already absolute in the model). -/
def sendFileR (st : FS) (p : String) : Resp :=
  match st.read p with
  | some b => .file p b
  | none => .json 404 "sendfile missing"

/-- Engine invocations in a trace. -/
def countEngine (t : List Ev) : Nat :=
  t.countP (fun e => match e with | .engine _ => true | _ => false)

/-- The resize controller's `switch (format)` choosing the encoder
(`'jpeg'`, `'jpg'` and the default all take the jpeg branch). -/
def resizeFmt : Option String → OutFmt
  | some "png" => .png
  | some "webp" => .webp
  | _ => .jpeg

/-- `ProcessController.resizeImage` (processController.js lines 7–112). -/
def resizeImage (db : List FileRec) (userId fileId : Nat)
    (width height quality format : Option String) (st : FS) : Outcome :=
  if !truthyOpt width && !truthyOpt height then
    ⟨[], .json 400 "Missing parameters", st⟩
  else
    let w := parseOptParam width
    let h := parseOptParam height
    let q := parseWithDefault quality 80
    if (jsTruthy w && (jsLt w 1 || jsGt w 4096)) ||
        (jsTruthy h && (jsLt h 1 || jsGt h 4096)) then
      ⟨[], .json 400 "Invalid dimensions", st⟩
    else if jsLt q 1 || jsGt q 100 then
      ⟨[], .json 400 "Invalid quality", st⟩
    else
      match findById db fileId userId with
      | none => ⟨[.dbLookup], .json 404 "File not found", st⟩
      | some file =>
        if file.file_type != "image" then
          ⟨[.dbLookup], .json 400 "Invalid file type", st⟩
        else
          match st.read file.path with
          | none => ⟨[.dbLookup, .fsCheck file.path], .json 404 "Physical file not found", st⟩
          | some src =>
            let ext := if truthyOpt format then format.getD "" else "jpeg"
            let cacheDir := pathJoin (dirnameOf file.path) "cache"
            let cachePath := pathJoin cacheDir (resizeCacheName (stemOf file.filename) w h q ext)
            let st1 := st.ensureDir cacheDir
            let t1 : List Ev :=
              [.dbLookup, .fsCheck file.path, .mkdir cacheDir, .cacheCheck cachePath]
            if (st1.read cachePath).isSome then
              ⟨t1, sendFileR st1 cachePath, st1⟩
            else
              let spec : EncodeSpec :=
                { op := if jsTruthy w || jsTruthy h then .inside w h else .pass
                  fmt := resizeFmt format
                  quality := some q }
              match sharpRun src spec with
              | .error _ => ⟨t1 ++ [.engine spec], .json 500 "Image processing failed", st1⟩
              | .ok b =>
                let st2 := st1.write cachePath b
                ⟨t1 ++ [.engine spec], sendFileR st2 cachePath, st2⟩

/-- The default-thumbnail shortcut condition (processController.js line 256):
`file.thumbnail_path && fs.existsSync(file.thumbnail_path) && s === 300`. -/
def defaultThumbHit (st : FS) (file : FileRec) (s : JVal) : Bool :=
  match file.thumbnail_path with
  | some tp => tp != "" && (st.read tp).isSome && s == .num 300
  | none => false

/-- `ProcessController.generateThumbnail` (processController.js lines 212–293). -/
def generateThumbnail (db : List FileRec) (userId fileId : Nat)
    (size quality : Option String) (st : FS) : Outcome :=
  let s := parseWithDefault size 300
  let q := parseWithDefault quality 80
  if jsLt s 50 || jsGt s 1000 then
    ⟨[], .json 400 "Invalid size", st⟩
  else if jsLt q 1 || jsGt q 100 then
    ⟨[], .json 400 "Invalid quality", st⟩
  else
    match findById db fileId userId with
    | none => ⟨[.dbLookup], .json 404 "File not found", st⟩
    | some file =>
      if file.file_type != "image" then
        ⟨[.dbLookup], .json 400 "Invalid file type", st⟩
      else
        match st.read file.path with
        | none => ⟨[.dbLookup, .fsCheck file.path], .json 404 "Physical file not found", st⟩
        | some src =>
          let tpTruthy := match file.thumbnail_path with
            | some tp => tp != ""
            | none => false
          let tp := file.thumbnail_path.getD ""
          let t0 : List Ev :=
            [.dbLookup, .fsCheck file.path] ++ (if tpTruthy then [.fsCheck tp] else [])
          if defaultThumbHit st file s then
            ⟨t0, sendFileR st tp, st⟩
          else
            let cacheDir := pathJoin (dirnameOf file.path) "cache"
            let cachePath := pathJoin cacheDir (thumbCacheName (stemOf file.filename) s q)
            let st1 := st.ensureDir cacheDir
            let t1 := t0 ++ [.mkdir cacheDir, .cacheCheck cachePath]
            if (st1.read cachePath).isSome then
              ⟨t1, sendFileR st1 cachePath, st1⟩
            else
              let spec : EncodeSpec := { op := .cover s, fmt := .jpeg, quality := some q }
              match sharpRun src spec with
              | .error _ => ⟨t1 ++ [.engine spec], .json 500 "Thumbnail generation failed", st1⟩
              | .ok b =>
                let st2 := st1.write cachePath b
                ⟨t1 ++ [.engine spec], sendFileR st2 cachePath, st2⟩

/-- `ProcessController.cropImage` (processController.js lines 354–443). -/
def cropImage (db : List FileRec) (userId fileId : Nat)
    (x y width height quality : Option String) (st : FS) : Outcome :=
  if !truthyOpt x || !truthyOpt y || !truthyOpt width || !truthyOpt height then
    ⟨[], .json 400 "Missing parameters", st⟩
  else
    let cropX := jsParseInt (x.getD "")
    let cropY := jsParseInt (y.getD "")
    let cropW := jsParseInt (width.getD "")
    let cropH := jsParseInt (height.getD "")
    let q := parseWithDefault quality 80
    if jsLt cropX 0 || jsLt cropY 0 || jsLt cropW 1 || jsLt cropH 1 then
      ⟨[], .json 400 "Invalid crop parameters", st⟩
    else if jsLt q 1 || jsGt q 100 then
      ⟨[], .json 400 "Invalid quality", st⟩
    else
      match findById db fileId userId with
      | none => ⟨[.dbLookup], .json 404 "File not found", st⟩
      | some file =>
        if file.file_type != "image" then
          ⟨[.dbLookup], .json 400 "Invalid file type", st⟩
        else
          match st.read file.path with
          | none => ⟨[.dbLookup, .fsCheck file.path], .json 404 "Physical file not found", st⟩
          | some src =>
            let cacheDir := pathJoin (dirnameOf file.path) "cache"
            let cachePath :=
              pathJoin cacheDir (cropCacheName (stemOf file.filename) cropX cropY cropW cropH q)
            let st1 := st.ensureDir cacheDir
            let t1 : List Ev :=
              [.dbLookup, .fsCheck file.path, .mkdir cacheDir, .cacheCheck cachePath]
            if (st1.read cachePath).isSome then
              ⟨t1, sendFileR st1 cachePath, st1⟩
            else
              let spec : EncodeSpec :=
                { op := .cut cropX cropY cropW cropH, fmt := .jpeg, quality := some q }
              match sharpRun src spec with
              | .error _ => ⟨t1 ++ [.engine spec], .json 500 "Image cropping failed", st1⟩
              | .ok b =>
                let st2 := st1.write cachePath b
                ⟨t1 ++ [.engine spec], sendFileR st2 cachePath, st2⟩

/-- The convert controller's `switch (format.toLowerCase())`. -/
def convertFmt (f : String) : OutFmt × Bool :=
  match toLowerS f with
  | "png" => (.png, true)
  | "webp" => (.webp, true)
  | "gif" => (.gif, false)
  | _ => (.jpeg, true)

/-- `ProcessController.convertImage` (processController.js lines 114–210). -/
def convertImage (db : List FileRec) (userId fileId : Nat)
    (format quality : Option String) (st : FS) : Outcome :=
  if !truthyOpt format then
    ⟨[], .json 400 "Missing format", st⟩
  else
    let f := format.getD ""
    if !(["jpeg", "jpg", "png", "webp", "gif"].contains (toLowerS f)) then
      ⟨[], .json 400 "Unsupported format", st⟩
    else
      let q := parseWithDefault quality 80
      if jsLt q 1 || jsGt q 100 then
        ⟨[], .json 400 "Invalid quality", st⟩
      else
        match findById db fileId userId with
        | none => ⟨[.dbLookup], .json 404 "File not found", st⟩
        | some file =>
          if file.file_type != "image" then
            ⟨[.dbLookup], .json 400 "Invalid file type", st⟩
          else
            match st.read file.path with
            | none =>
              ⟨[.dbLookup, .fsCheck file.path], .json 404 "Physical file not found", st⟩
            | some src =>
              let cacheDir := pathJoin (dirnameOf file.path) "cache"
              let cachePath :=
                pathJoin cacheDir (convertCacheName (stemOf file.filename) q f)
              let st1 := st.ensureDir cacheDir
              let t1 : List Ev :=
                [.dbLookup, .fsCheck file.path, .mkdir cacheDir, .cacheCheck cachePath]
              if (st1.read cachePath).isSome then
                ⟨t1, sendFileR st1 cachePath, st1⟩
              else
                let fc := convertFmt f
                let spec : EncodeSpec :=
                  { op := .pass, fmt := fc.1
                    quality := if fc.2 then some q else none }
                match sharpRun src spec with
                | .error _ => ⟨t1 ++ [.engine spec], .json 500 "Image conversion failed", st1⟩
                | .ok b =>
                  let st2 := st1.write cachePath b
                  ⟨t1 ++ [.engine spec], sendFileR st2 cachePath, st2⟩

/-- `ProcessController.getImageInfo` (processController.js lines 295–352). -/
def getImageInfo (db : List FileRec) (userId fileId : Nat) (st : FS) : Outcome :=
  match findById db fileId userId with
  | none => ⟨[.dbLookup], .json 404 "File not found", st⟩
  | some file =>
    if file.file_type != "image" then
      ⟨[.dbLookup], .json 400 "Invalid file type", st⟩
    else
      match st.read file.path with
      | none => ⟨[.dbLookup, .fsCheck file.path], .json 404 "Physical file not found", st⟩
      | some src =>
        if src.width = 0 || src.height = 0 then
          ⟨[.dbLookup, .fsCheck file.path, .metaProbe],
            .json 500 "Unable to get image information", st⟩
        else
          ⟨[.dbLookup, .fsCheck file.path, .metaProbe], .infoJson src, st⟩

/-- `FileController.deleteFile`: `File.delete(id, req.user.id)` (an
ownership-scoped `SELECT` then `DELETE`), then `unlinkSync` of the original
path and of the default thumbnail path, each guarded by truthiness and
`fs.existsSync`.  Nothing else is touched. -/
def deleteFile (db : List FileRec) (userId fileId : Nat) (st : FS) :
    List FileRec × Resp × FS :=
  match findById db fileId userId with
  | none => (db, .json 404 "File not found", st)
  | some r0 =>
    let db' := db.filter (fun r => !(r.id == fileId && r.user_id == userId))
    let st1 := if (st.read r0.path).isSome then st.remove r0.path else st
    let tpTruthy := match r0.thumbnail_path with
      | some tp => tp != ""
      | none => false
    let tp := r0.thumbnail_path.getD ""
    let st2 := if tpTruthy && (st1.read tp).isSome then st1.remove tp else st1
    (db', .okMsg "File deleted successfully", st2)

/-- Upload-time default thumbnail (uploadController, `uploadImage`):
`sharp(file.path).resize(300, 300, { fit: 'inside', withoutEnlargement: true })
.jpeg({ quality: 80 })` — an inside fit, so not necessarily square. -/
def uploadDefaultThumbnail (src : Img) : Except String Img :=
  sharpRun src
    { op := .inside (.num 300) (.num 300), fmt := .jpeg, quality := some (.num 80) }

/-- The canonical target-format enumeration of the spec (`jpg` and `jpeg` are
distinct canonical spellings and give distinct keys). -/
inductive CFormat
  | jpeg
  | jpg
  | png
  | webp
  | gif
deriving DecidableEq, Repr

/-- The format's spelling as embedded in cache filenames. -/
def CFormat.str : CFormat → String
  | .jpeg => "jpeg"
  | .jpg => "jpg"
  | .png => "png"
  | .webp => "webp"
  | .gif => "gif"

/-- A canonicalized parameter set of one of the four cached operations
(defaults already applied, values numeric). -/
inductive CanonParams
  | resize (w h : Option Nat) (q : Nat) (f : CFormat)
  | crop (x y w h : Nat) (q : Nat)
  | thumbnail (s q : Nat)
  | convert (f : CFormat) (q : Nat)
deriving DecidableEq, Repr

/-- The validation envelope of §4.1 for a canonical parameter set. -/
def CanonParams.valid : CanonParams → Bool
  | .resize w h q _ =>
    (w.isSome || h.isSome) &&
      (match w with | some n => 1 ≤ n && n ≤ 4096 | none => true) &&
      (match h with | some n => 1 ≤ n && n ≤ 4096 | none => true) &&
      1 ≤ q && q ≤ 100
  | .crop _ _ w h q => 1 ≤ w && 1 ≤ h && 1 ≤ q && q ≤ 100
  | .thumbnail s q => 50 ≤ s && s ≤ 1000 && 1 ≤ q && q ≤ 100
  | .convert _ q => 1 ≤ q && q ≤ 100

/-- A canonical optional dimension as the controller's parsed value. -/
def toJ : Option Nat → JVal
  | none => .null
  | some n => .num n

/-- `deriveKey`: the cache filename the controllers generate for a canonical
parameter set (each case is the corresponding controller's template). -/
def canonKey (stem : String) : CanonParams → String
  | .resize w h q f => resizeCacheName stem (toJ w) (toJ h) (.num q) f.str
  | .crop x y w h q => cropCacheName stem (.num x) (.num y) (.num w) (.num h) (.num q)
  | .thumbnail s q => thumbCacheName stem (.num s) (.num q)
  | .convert f q => convertCacheName stem (.num q) f.str

/-- Character rendering of a canonical optional dimension
(`${w || 'auto'}` on a validated value). -/
def dimD : Option Nat → List Char
  | none => ['a', 'u', 't', 'o']
  | some n => decList n

/-- Sample decoded source image (600×300, content id 5) for concrete runs. -/
def imgW : Img := ⟨600, 300, 5⟩

/-- Sample registered image asset of user 7. -/
def fileW : FileRec := ⟨1, 7, "photo.jpg", "/up/7/photo.jpg", "image", none⟩

/-- Sample registered non-image asset of user 7. -/
def fileD : FileRec := ⟨2, 7, "doc.pdf", "/up/7/doc.pdf", "document", none⟩

/-- Sample image asset that has a recorded default-thumbnail path. -/
def fileP : FileRec := ⟨3, 7, "pic.jpg", "/up/7/pic.jpg", "image", some "/up/7/pic_thumb.jpg"⟩

/-- Sample asset registry. -/
def dbW : List FileRec := [fileW, fileD, fileP]

/-- Sample filesystem: the three originals, no cache, no default thumbnail. -/
def stW : FS :=
  ⟨[("/up/7/photo.jpg", imgW), ("/up/7/doc.pdf", ⟨0, 0, 9⟩), ("/up/7/pic.jpg", imgW)],
    ["/up/7"]⟩

/-- `stW` with the upload-time default thumbnail of `fileP` on disk: the
300×150 inside-fit jpeg the upload controller generates from the 600×300
source. -/
def stP : FS :=
  stW.write "/up/7/pic_thumb.jpg"
    ⟨300, 150, Nat.pair 5 (specCode ⟨.inside (.num 300) (.num 300), .jpeg, some (.num 80)⟩)⟩

/-! ### Decimal rendering lemmas -/

theorem decList_lt {n : Nat} (h : n < 10) : decList n = [decChar n] := by
  rw [decList]
  simp [h]

theorem decList_ge {n : Nat} (h : ¬ n < 10) : decList n = decList (n / 10) ++ [decChar n] := by
  rw [decList]
  simp [h]

theorem decAux_eq (f : Nat) : ∀ n acc, n < f → decAux f n acc = decList n ++ acc := by
  induction f with
  | zero => intro n acc h; omega
  | succ f ih =>
    intro n acc h
    rw [decAux]
    by_cases h10 : n < 10
    · rw [if_pos h10, decList_lt h10]
      simp
    · rw [if_neg h10]
      have hlt : n / 10 < f := by
        have := Nat.div_lt_self (by omega : 0 < n) (by omega : 1 < 10)
        omega
      rw [ih (n / 10) _ hlt, decList_ge h10]
      simp

theorem decStr_eq (n : Nat) : decStr n = decList n := by
  rw [decStr, decAux_eq (n + 1) n [] (by omega)]
  simp

theorem natS_data (n : Nat) : (natS n).data = decList n := decStr_eq n

theorem decList_ne_nil (n : Nat) : decList n ≠ [] := by
  by_cases h : n < 10
  · rw [decList_lt h]; simp
  · rw [decList_ge h]; simp

theorem decChar_isDigit (n : Nat) : (decChar n).isDigit = true := by
  have h : n % 10 < 10 := Nat.mod_lt _ (by omega)
  unfold decChar
  interval_cases hk : n % 10 <;> decide

theorem decChar_toNat {n : Nat} (h : n < 10) : (decChar n).toNat = 48 + n := by
  unfold decChar
  rw [Nat.mod_eq_of_lt h]
  interval_cases n <;> decide

theorem decChar_inj {a b : Nat} (ha : a < 10) (hb : b < 10)
    (h : decChar a = decChar b) : a = b := by
  have h1 := decChar_toNat ha
  have h2 := decChar_toNat hb
  rw [h, h2] at h1
  omega

theorem decChar_mod (n : Nat) : decChar n = decChar (n % 10) := by
  unfold decChar
  rw [Nat.mod_mod_of_dvd _ (by norm_num)]

theorem decList_digits (n : Nat) : ∀ c ∈ decList n, c.isDigit = true := by
  induction n using Nat.strong_induction_on with
  | _ n ih =>
    by_cases h : n < 10
    · rw [decList_lt h]
      intro c hc
      simp only [List.mem_singleton] at hc
      subst hc
      exact decChar_isDigit n
    · rw [decList_ge h]
      intro c hc
      rcases List.mem_append.mp hc with h1 | h2
      · have hlt : n / 10 < n := Nat.div_lt_self (by omega) (by omega)
        exact ih (n / 10) hlt c h1
      · simp only [List.mem_singleton] at h2
        subst h2
        exact decChar_isDigit n

theorem decList_inj : ∀ {m n : Nat}, decList m = decList n → m = n := by
  intro m
  induction m using Nat.strong_induction_on with
  | _ m ih =>
    intro n h
    by_cases hm : m < 10 <;> by_cases hn : n < 10
    · rw [decList_lt hm, decList_lt hn] at h
      simp only [List.cons.injEq] at h
      exact decChar_inj hm hn h.1
    · rw [decList_lt hm, decList_ge hn] at h
      obtain ⟨d, ds, hds⟩ := List.exists_cons_of_ne_nil (decList_ne_nil (n / 10))
      rw [hds] at h
      simp at h
    · rw [decList_ge hm, decList_lt hn] at h
      obtain ⟨d, ds, hds⟩ := List.exists_cons_of_ne_nil (decList_ne_nil (m / 10))
      rw [hds] at h
      simp at h
    · rw [decList_ge hm, decList_ge hn] at h
      obtain ⟨h1, h2⟩ := List.append_inj' h (by simp)
      have hdiv : m / 10 = n / 10 :=
        ih (m / 10) (Nat.div_lt_self (by omega) (by omega)) h1
      have hmod : m % 10 = n % 10 := by
        simp only [List.cons.injEq] at h2
        have := h2.1
        rw [decChar_mod m, decChar_mod n] at this
        exact decChar_inj (Nat.mod_lt _ (by omega)) (Nat.mod_lt _ (by omega)) this
      omega

theorem not_mem_decList {c : Char} (hc : c.isDigit = false) (n : Nat) : c ∉ decList n := by
  intro h
  have := decList_digits n c h
  rw [hc] at this
  exact Bool.noConfusion this

/-! ### Separator injectivity -/

theorem append_sep_inj {sep : Char} : ∀ {a b c d : List Char},
    sep ∉ a → sep ∉ b → a ++ sep :: c = b ++ sep :: d → a = b ∧ c = d := by
  intro a
  induction a with
  | nil =>
    intro b c d _ hb h
    cases b with
    | nil => simpa using h
    | cons y b' =>
      simp only [List.nil_append, List.cons_append, List.cons.injEq] at h
      exact absurd (h.1 ▸ List.mem_cons_self y b') hb
  | cons x a' ih =>
    intro b c d ha hb h
    cases b with
    | nil =>
      simp only [List.cons_append, List.nil_append, List.cons.injEq] at h
      exact absurd (h.1.symm ▸ List.mem_cons_self x a') ha
    | cons y b' =>
      simp only [List.cons_append, List.cons.injEq] at h
      obtain ⟨hxy, hrest⟩ := h
      have ha' : sep ∉ a' := fun hm => ha (List.mem_cons_of_mem _ hm)
      have hb' : sep ∉ b' := fun hm => hb (List.mem_cons_of_mem _ hm)
      obtain ⟨e1, e2⟩ := ih ha' hb' hrest
      exact ⟨by rw [hxy, e1], e2⟩

/-! ### Cache-key component lemmas -/

theorem jvalS_num_nat (n : Nat) : jvalS (.num (n : Int)) = natS n := by
  rw [jvalS, intS, if_neg (by omega : ¬ ((n : Int) < 0))]
  simp

theorem dim_data {w : Option Nat} (hw : ∀ n ∈ w, 1 ≤ n) : (jvalDim (toJ w)).data = dimD w := by
  cases w with
  | none => rfl
  | some n =>
    have h1 : 1 ≤ n := hw n rfl
    rw [jvalDim, if_pos (by simp [toJ, jsTruthy]; omega)]
    rw [toJ, jvalS_num_nat]
    exact natS_data n

theorem resizeKey_data (stem : String) (w h : Option Nat) (q : Nat) (f : CFormat)
    (hw : ∀ n ∈ w, 1 ≤ n) (hh : ∀ n ∈ h, 1 ≤ n) :
    (canonKey stem (.resize w h q f)).data =
      stem.data ++ '_' :: (dimD w ++ 'x' :: (dimD h ++ '_' :: 'q' ::
        (decList q ++ '.' :: (CFormat.str f).data))) := by
  simp [canonKey, resizeCacheName, String.data_append, dim_data hw, dim_data hh,
    jvalS_num_nat, natS_data]

theorem cropKey_data (stem : String) (x y w h q : Nat) :
    (canonKey stem (.crop x y w h q)).data =
      stem.data ++ '_' :: ('c' :: 'r' :: 'o' :: 'p' :: '_' ::
        (decList x ++ '_' :: (decList y ++ '_' :: (decList w ++ '_' ::
          (decList h ++ '_' :: 'q' :: (decList q ++ ['.', 'j', 'p', 'g'])))))) := by
  simp [canonKey, cropCacheName, String.data_append, jvalS_num_nat, natS_data]

theorem thumbKey_data (stem : String) (s q : Nat) :
    (canonKey stem (.thumbnail s q)).data =
      stem.data ++ '_' :: ('t' :: 'h' :: 'u' :: 'm' :: 'b' :: '_' ::
        (decList s ++ 'x' :: (decList s ++ '_' :: 'q' ::
          (decList q ++ ['.', 'j', 'p', 'g'])))) := by
  simp [canonKey, thumbCacheName, String.data_append, jvalS_num_nat, natS_data]

theorem convertKey_data (stem : String) (f : CFormat) (q : Nat) :
    (canonKey stem (.convert f q)).data =
      stem.data ++ '_' :: ('c' :: 'o' :: 'n' :: 'v' :: 'e' :: 'r' :: 't' :: 'e' :: 'd' ::
        '_' :: 'q' :: (decList q ++ '.' :: (CFormat.str f).data)) := by
  simp [canonKey, convertCacheName, String.data_append, jvalS_num_nat, natS_data]

theorem x_not_dimD (w : Option Nat) : 'x' ∉ dimD w := by
  cases w with
  | none => decide
  | some n => exact not_mem_decList (by decide) n

theorem us_not_dimD (w : Option Nat) : '_' ∉ dimD w := by
  cases w with
  | none => decide
  | some n => exact not_mem_decList (by decide) n

theorem dimD_inj {w1 w2 : Option Nat} (h : dimD w1 = dimD w2) : w1 = w2 := by
  cases w1 with
  | none =>
    cases w2 with
    | none => rfl
    | some n =>
      have h' : (['a', 'u', 't', 'o'] : List Char) = decList n := h
      exact absurd (h' ▸ (by decide : 'a' ∈ (['a', 'u', 't', 'o'] : List Char)))
        (not_mem_decList (by decide) n)
  | some m =>
    cases w2 with
    | none =>
      have h' : (['a', 'u', 't', 'o'] : List Char) = decList m := h.symm
      exact absurd (h' ▸ (by decide : 'a' ∈ (['a', 'u', 't', 'o'] : List Char)))
        (not_mem_decList (by decide) m)
    | some n => exact congrArg some (decList_inj h)

theorem dimD_append_ne {w : Option Nat} {c : Char} (hc : c.isDigit = false) (hca : c ≠ 'a')
    (rest tail : List Char) : dimD w ++ rest ≠ c :: tail := by
  cases w with
  | none =>
    intro h
    simp [dimD] at h
    exact hca h.1.symm
  | some n =>
    intro h
    obtain ⟨d, ds, hds⟩ := List.exists_cons_of_ne_nil (decList_ne_nil n)
    rw [dimD, hds] at h
    simp at h
    have hdig := decList_digits n d (by rw [hds]; exact List.mem_cons_self _ _)
    rw [h.1, hc] at hdig
    exact Bool.noConfusion hdig

theorem cformat_str_inj {f g : CFormat} (h : (CFormat.str f).data = (CFormat.str g).data) :
    f = g := by
  cases f <;> cases g <;> first | rfl | (exact absurd h (by decide))

theorem valid_resize_w {w h : Option Nat} {q : Nat} {f : CFormat}
    (hv : (CanonParams.resize w h q f).valid = true) : ∀ n ∈ w, 1 ≤ n := by
  intro n hn
  cases w with
  | none => cases hn
  | some m =>
    simp only [Option.mem_def, Option.some.injEq] at hn
    subst hn
    simp [CanonParams.valid] at hv
    omega

theorem valid_resize_h {w h : Option Nat} {q : Nat} {f : CFormat}
    (hv : (CanonParams.resize w h q f).valid = true) : ∀ n ∈ h, 1 ≤ n := by
  intro n hn
  cases h with
  | none => cases hn
  | some m =>
    simp only [Option.mem_def, Option.some.injEq] at hn
    subst hn
    simp [CanonParams.valid] at hv
    cases w <;> simp at hv <;> omega


theorem cache_key_injective (stem : String) (p1 p2 : CanonParams)
    (h1 : p1.valid = true) (h2 : p2.valid = true)
    (heq : canonKey stem p1 = canonKey stem p2) : p1 = p2 := by
  have e := congrArg String.data heq
  cases p1 with
  | resize w1 d1 q1 f1 =>
    rw [resizeKey_data stem w1 d1 q1 f1 (valid_resize_w h1) (valid_resize_h h1)] at e
    cases p2 with
    | resize w2 d2 q2 f2 =>
      rw [resizeKey_data stem w2 d2 q2 f2 (valid_resize_w h2) (valid_resize_h h2)] at e
      have e1 := List.append_cancel_left e
      simp only [List.cons.injEq, true_and] at e1
      obtain ⟨ew, e2⟩ := append_sep_inj (x_not_dimD w1) (x_not_dimD w2) e1
      obtain ⟨ed, e3⟩ := append_sep_inj (us_not_dimD d1) (us_not_dimD d2) e2
      simp only [List.cons.injEq, true_and] at e3
      obtain ⟨eq', ef⟩ := append_sep_inj (not_mem_decList (by decide) q1)
        (not_mem_decList (by decide) q2) e3
      rw [dimD_inj ew, dimD_inj ed, decList_inj eq', cformat_str_inj ef]
    | crop x2 y2 w2 d2 q2 =>
      rw [cropKey_data stem x2 y2 w2 d2 q2] at e
      have e1 := List.append_cancel_left e
      simp only [List.cons.injEq, true_and] at e1
      exact absurd e1 (dimD_append_ne (by decide) (by decide) _ _)
    | thumbnail s2 q2 =>
      rw [thumbKey_data stem s2 q2] at e
      have e1 := List.append_cancel_left e
      simp only [List.cons.injEq, true_and] at e1
      exact absurd e1 (dimD_append_ne (by decide) (by decide) _ _)
    | convert f2 q2 =>
      rw [convertKey_data stem f2 q2] at e
      have e1 := List.append_cancel_left e
      simp only [List.cons.injEq, true_and] at e1
      exact absurd e1 (dimD_append_ne (by decide) (by decide) _ _)
  | crop x1 y1 w1 d1 q1 =>
    rw [cropKey_data stem x1 y1 w1 d1 q1] at e
    cases p2 with
    | resize w2 d2 q2 f2 =>
      rw [resizeKey_data stem w2 d2 q2 f2 (valid_resize_w h2) (valid_resize_h h2)] at e
      have e1 := List.append_cancel_left e
      simp only [List.cons.injEq, true_and] at e1
      exact absurd e1.symm (dimD_append_ne (by decide) (by decide) _ _)
    | crop x2 y2 w2 d2 q2 =>
      rw [cropKey_data stem x2 y2 w2 d2 q2] at e
      have e1 := List.append_cancel_left e
      simp only [List.cons.injEq, true_and] at e1
      obtain ⟨ex, e2⟩ := append_sep_inj (not_mem_decList (by decide) x1)
        (not_mem_decList (by decide) x2) e1
      obtain ⟨ey, e3⟩ := append_sep_inj (not_mem_decList (by decide) y1)
        (not_mem_decList (by decide) y2) e2
      obtain ⟨ew, e4⟩ := append_sep_inj (not_mem_decList (by decide) w1)
        (not_mem_decList (by decide) w2) e3
      obtain ⟨ed, e5⟩ := append_sep_inj (not_mem_decList (by decide) d1)
        (not_mem_decList (by decide) d2) e4
      simp only [List.cons.injEq, true_and] at e5
      obtain ⟨eq', _⟩ := append_sep_inj (not_mem_decList (by decide) q1)
        (not_mem_decList (by decide) q2) e5
      rw [decList_inj ex, decList_inj ey, decList_inj ew, decList_inj ed, decList_inj eq']
    | thumbnail s2 q2 =>
      rw [thumbKey_data stem s2 q2] at e
      have e1 := List.append_cancel_left e
      simp at e1
    | convert f2 q2 =>
      rw [convertKey_data stem f2 q2] at e
      have e1 := List.append_cancel_left e
      simp at e1
  | thumbnail s1 q1 =>
    rw [thumbKey_data stem s1 q1] at e
    cases p2 with
    | resize w2 d2 q2 f2 =>
      rw [resizeKey_data stem w2 d2 q2 f2 (valid_resize_w h2) (valid_resize_h h2)] at e
      have e1 := List.append_cancel_left e
      simp only [List.cons.injEq, true_and] at e1
      exact absurd e1.symm (dimD_append_ne (by decide) (by decide) _ _)
    | crop x2 y2 w2 d2 q2 =>
      rw [cropKey_data stem x2 y2 w2 d2 q2] at e
      have e1 := List.append_cancel_left e
      simp at e1
    | thumbnail s2 q2 =>
      rw [thumbKey_data stem s2 q2] at e
      have e1 := List.append_cancel_left e
      simp only [List.cons.injEq, true_and] at e1
      obtain ⟨es, e2⟩ := append_sep_inj (not_mem_decList (by decide) s1)
        (not_mem_decList (by decide) s2) e1
      obtain ⟨_, e3⟩ := append_sep_inj (not_mem_decList (by decide) s1)
        (not_mem_decList (by decide) s2) e2
      simp only [List.cons.injEq, true_and] at e3
      obtain ⟨eq', _⟩ := append_sep_inj (not_mem_decList (by decide) q1)
        (not_mem_decList (by decide) q2) e3
      rw [decList_inj es, decList_inj eq']
    | convert f2 q2 =>
      rw [convertKey_data stem f2 q2] at e
      have e1 := List.append_cancel_left e
      simp at e1
  | convert f1 q1 =>
    rw [convertKey_data stem f1 q1] at e
    cases p2 with
    | resize w2 d2 q2 f2 =>
      rw [resizeKey_data stem w2 d2 q2 f2 (valid_resize_w h2) (valid_resize_h h2)] at e
      have e1 := List.append_cancel_left e
      simp only [List.cons.injEq, true_and] at e1
      exact absurd e1.symm (dimD_append_ne (by decide) (by decide) _ _)
    | crop x2 y2 w2 d2 q2 =>
      rw [cropKey_data stem x2 y2 w2 d2 q2] at e
      have e1 := List.append_cancel_left e
      simp at e1
    | thumbnail s2 q2 =>
      rw [thumbKey_data stem s2 q2] at e
      have e1 := List.append_cancel_left e
      simp at e1
    | convert f2 q2 =>
      rw [convertKey_data stem f2 q2] at e
      have e1 := List.append_cancel_left e
      simp only [List.cons.injEq, true_and] at e1
      obtain ⟨eq', ef⟩ := append_sep_inj (not_mem_decList (by decide) q1)
        (not_mem_decList (by decide) q2) e1
      rw [decList_inj eq', cformat_str_inj ef]


/-! ### Claim C2 -/

/-- C2: cache-key determinism and injectivity.  For a fixed source filename
stem, the generated cache filename of a canonical (validated) parameter set is
the same string on every call, and any two canonical parameter sets that differ
in at least one field — across or within the operations resize, crop,
thumbnail, convert — produce distinct cache filenames within the same source
directory. -/
theorem cache_key_deterministic_and_injective (stem : String) (p1 p2 : CanonParams)
    (h1 : p1.valid = true) (h2 : p2.valid = true) :
    canonKey stem p1 = canonKey stem p1 ∧
      (canonKey stem p1 = canonKey stem p2 → p1 = p2) :=
  ⟨rfl, fun heq => cache_key_injective stem p1 p2 h1 h2 heq⟩

/-- Witness for C2 at concrete parameter sets (a resize and a thumbnail whose
rendered sizes share digits). -/
theorem cache_key_deterministic_and_injective_witness :
    canonKey "photo" (.resize (some 300) (some 300) 80 .jpeg) =
        canonKey "photo" (.resize (some 300) (some 300) 80 .jpeg) ∧
      (canonKey "photo" (.resize (some 300) (some 300) 80 .jpeg) =
          canonKey "photo" (.thumbnail 300 80) →
        (CanonParams.resize (some 300) (some 300) 80 .jpeg) = .thumbnail 300 80) :=
  cache_key_deterministic_and_injective "photo" _ _ (by decide) (by decide)

/-! ### Filesystem lemmas and claim C8 -/

theorem lookup_filter_ne {l : List (String × Img)} {p q : String} (h : q ≠ p) :
    (l.filter (fun e => e.1 != p)).lookup q = l.lookup q := by
  induction l with
  | nil => rfl
  | cons e l ih =>
    obtain ⟨a, b⟩ := e
    by_cases he : a = p
    · subst he
      have hqa : (q == a) = false := beq_eq_false_iff_ne.mpr h
      simp only [List.filter_cons, bne_self_eq_false, Bool.false_eq_true, if_false,
        List.lookup, hqa, ih]
    · have hf : ((a, b).1 != p) = true := by simp [he]
      simp only [List.filter_cons, hf, if_true, List.lookup]
      cases hqa : (q == a) with
      | true => rfl
      | false => exact ih

theorem FS.read_remove_ne (st : FS) {p q : String} (h : q ≠ p) :
    (st.remove p).read q = st.read q := lookup_filter_ne h

theorem FS.read_write_self (st : FS) (p : String) (b : Img) :
    (st.write p b).read p = some b := by
  simp [FS.write, FS.read, List.lookup]

theorem FS.read_write_ne (st : FS) {p q : String} (b : Img) (h : q ≠ p) :
    (st.write p b).read q = st.read q := by
  simp only [FS.write, FS.read, List.lookup]
  have hqp : (q == p) = false := beq_eq_false_iff_ne.mpr h
  rw [hqp]
  exact lookup_filter_ne h

theorem FS.dirs_remove (st : FS) (p : String) : (st.remove p).dirs = st.dirs := rfl

theorem FS.dirs_write (st : FS) (p : String) (b : Img) : (st.write p b).dirs = st.dirs := rfl

/-- C8: deletion leaves the cache untouched.  For every successful file
deletion, only the record's original file and its recorded default-thumbnail
file are removed from disk: no directory changes, every other path keeps its
previous content, and in particular every previously generated cache
derivative remains present (and hence servable). -/
theorem delete_leaves_cache_untouched (db : List FileRec) (uid fid : Nat) (st : FS)
    (r0 : FileRec) (hfind : findById db fid uid = some r0) :
    (deleteFile db uid fid st).2.2.dirs = st.dirs ∧
    (∀ p, p ≠ r0.path → (∀ tp, r0.thumbnail_path = some tp → p ≠ tp) →
      (deleteFile db uid fid st).2.2.read p = st.read p) ∧
    (∀ p b, st.read p = some b → p ≠ r0.path →
      (∀ tp, r0.thumbnail_path = some tp → p ≠ tp) →
      (deleteFile db uid fid st).2.2.read p = some b) := by
  have hmain : ∀ p, p ≠ r0.path → (∀ tp, r0.thumbnail_path = some tp → p ≠ tp) →
      (deleteFile db uid fid st).2.2.read p = st.read p := by
    intro p hp htp
    simp only [deleteFile, hfind]
    cases hth : r0.thumbnail_path with
    | none =>
      split_ifs with h1 h2 h3 <;>
        simp_all [FS.read_remove_ne _ hp]
    | some tp =>
      have hptp : p ≠ tp := htp tp hth
      split_ifs with h1 h2 h3 <;>
        simp_all [FS.read_remove_ne _ hp, FS.read_remove_ne _ hptp]
  refine ⟨?_, hmain, fun p b hb hp htp => (hmain p hp htp).trans hb⟩
  simp only [deleteFile, hfind]
  cases hth : r0.thumbnail_path <;> split_ifs <;> rfl


/-- Witness for C8: deleting `fileW` in a world that holds a cached resize
derivative of it leaves that derivative on disk. -/
theorem delete_leaves_cache_untouched_witness :
    (deleteFile dbW 7 1 (stW.write "/up/7/cache/photo_800xauto_q80.jpeg"
        ⟨600, 300, 42⟩)).2.2.read "/up/7/cache/photo_800xauto_q80.jpeg" =
      some ⟨600, 300, 42⟩ :=
  (delete_leaves_cache_untouched dbW 7 1 _ fileW (by decide)).2.2
    "/up/7/cache/photo_800xauto_q80.jpeg" ⟨600, 300, 42⟩ (by decide) (by decide)
    (fun tp htp => nomatch htp)

/-! ### Claim C10 -/

/-- C10: non-image assets are rejected before any work.  For each of the five
operations (resize, convert, thumbnail, info, crop), when the request passes
parameter validation and the ownership-scoped registry lookup finds a record
whose `file_type` is not `"image"`, the controller responds 400
"Invalid file type" with a trace containing only the registry lookup — no
physical-file existence check, cache lookup or engine invocation — and the
filesystem is unchanged. -/
theorem non_image_rejected_before_any_work :
    (∀ db uid fid width height quality format st file,
      (!truthyOpt width && !truthyOpt height) = false →
      ((jsTruthy (parseOptParam width) &&
          (jsLt (parseOptParam width) 1 || jsGt (parseOptParam width) 4096)) ||
        (jsTruthy (parseOptParam height) &&
          (jsLt (parseOptParam height) 1 || jsGt (parseOptParam height) 4096))) = false →
      (jsLt (parseWithDefault quality 80) 1 || jsGt (parseWithDefault quality 80) 100) = false →
      findById db fid uid = some file →
      file.file_type ≠ "image" →
      resizeImage db uid fid width height quality format st =
        ⟨[.dbLookup], .json 400 "Invalid file type", st⟩) ∧
    (∀ db uid fid format quality st file,
      truthyOpt format = true →
      (["jpeg", "jpg", "png", "webp", "gif"].contains (toLowerS (format.getD ""))) = true →
      (jsLt (parseWithDefault quality 80) 1 || jsGt (parseWithDefault quality 80) 100) = false →
      findById db fid uid = some file →
      file.file_type ≠ "image" →
      convertImage db uid fid format quality st =
        ⟨[.dbLookup], .json 400 "Invalid file type", st⟩) ∧
    (∀ db uid fid size quality st file,
      (jsLt (parseWithDefault size 300) 50 || jsGt (parseWithDefault size 300) 1000) = false →
      (jsLt (parseWithDefault quality 80) 1 || jsGt (parseWithDefault quality 80) 100) = false →
      findById db fid uid = some file →
      file.file_type ≠ "image" →
      generateThumbnail db uid fid size quality st =
        ⟨[.dbLookup], .json 400 "Invalid file type", st⟩) ∧
    (∀ db uid fid st file,
      findById db fid uid = some file →
      file.file_type ≠ "image" →
      getImageInfo db uid fid st = ⟨[.dbLookup], .json 400 "Invalid file type", st⟩) ∧
    (∀ db uid fid x y width height quality st file,
      (!truthyOpt x || !truthyOpt y || !truthyOpt width || !truthyOpt height) = false →
      (jsLt (jsParseInt (x.getD "")) 0 || jsLt (jsParseInt (y.getD "")) 0 ||
        jsLt (jsParseInt (width.getD "")) 1 || jsLt (jsParseInt (height.getD "")) 1) = false →
      (jsLt (parseWithDefault quality 80) 1 || jsGt (parseWithDefault quality 80) 100) = false →
      findById db fid uid = some file →
      file.file_type ≠ "image" →
      cropImage db uid fid x y width height quality st =
        ⟨[.dbLookup], .json 400 "Invalid file type", st⟩) := by
  refine ⟨?_, ?_, ?_, ?_, ?_⟩
  · intro db uid fid width height quality format st file h1 h2 h3 hfind htype
    have ht : (file.file_type != "image") = true := bne_iff_ne.mpr htype
    simp only [resizeImage, h1, h2, h3, hfind, ht, Bool.false_eq_true, if_false, if_true]
  · intro db uid fid format quality st file h1 h2 h3 hfind htype
    have ht : (file.file_type != "image") = true := bne_iff_ne.mpr htype
    simp only [convertImage, h1, h2, h3, hfind, ht, Bool.not_true, Bool.not_false,
      Bool.false_eq_true, if_false, if_true]
  · intro db uid fid size quality st file h1 h2 hfind htype
    have ht : (file.file_type != "image") = true := bne_iff_ne.mpr htype
    simp only [generateThumbnail, h1, h2, hfind, ht, Bool.false_eq_true, if_false, if_true]
  · intro db uid fid st file hfind htype
    have ht : (file.file_type != "image") = true := bne_iff_ne.mpr htype
    simp only [getImageInfo, hfind, ht, if_true]
  · intro db uid fid x y width height quality st file h1 h2 h3 hfind htype
    have ht : (file.file_type != "image") = true := bne_iff_ne.mpr htype
    simp only [cropImage, h1, h2, h3, hfind, ht, Bool.false_eq_true, if_false, if_true]


/-- Witness for C10: each of the five operations on the non-image asset
`fileD` (a document) returns the invalid-file-type error, leaves the
filesystem unchanged, and traces only the registry lookup. -/
theorem non_image_rejected_before_any_work_witness :
    resizeImage dbW 7 2 (some "800") none none none stW =
        ⟨[.dbLookup], .json 400 "Invalid file type", stW⟩ ∧
      convertImage dbW 7 2 (some "png") none stW =
        ⟨[.dbLookup], .json 400 "Invalid file type", stW⟩ ∧
      generateThumbnail dbW 7 2 none none stW =
        ⟨[.dbLookup], .json 400 "Invalid file type", stW⟩ ∧
      getImageInfo dbW 7 2 stW = ⟨[.dbLookup], .json 400 "Invalid file type", stW⟩ ∧
      cropImage dbW 7 2 (some "0") (some "0") (some "10") (some "10") none stW =
        ⟨[.dbLookup], .json 400 "Invalid file type", stW⟩ :=
  ⟨non_image_rejected_before_any_work.1 dbW 7 2 (some "800") none none none stW fileD
      (by decide) (by decide) (by decide) (by decide) (by decide),
    non_image_rejected_before_any_work.2.1 dbW 7 2 (some "png") none stW fileD
      (by decide) (by decide) (by decide) (by decide) (by decide),
    non_image_rejected_before_any_work.2.2.1 dbW 7 2 none none stW fileD
      (by decide) (by decide) (by decide) (by decide),
    non_image_rejected_before_any_work.2.2.2.1 dbW 7 2 stW fileD
      (by decide) (by decide),
    non_image_rejected_before_any_work.2.2.2.2 dbW 7 2 (some "0") (some "0") (some "10")
      (some "10") none stW fileD (by decide) (by decide) (by decide) (by decide) (by decide)⟩

/-! ### Claim C5 -/

/-- C5 counterexample: `width=0` is present and outside [1,4096], yet the
request is not rejected: because `0` is falsy in JavaScript the range check
`(w && (w < 1 || w > 4096))` is skipped, and the request reaches the engine
(one invocation), writes a cache file, and returns the generated image. -/
theorem resize_validation_counterexample :
    (∀ m, (resizeImage dbW 7 1 (some "0") none none none stW).resp ≠ .json 400 m) ∧
      countEngine (resizeImage dbW 7 1 (some "0") none none none stW).trace = 1 ∧
      (resizeImage dbW 7 1 (some "0") none none none stW).fs ≠ stW := by
  have h : (resizeImage dbW 7 1 (some "0") none none none stW).resp =
      .file "/up/7/cache/photo_autoxauto_q80.jpeg"
        ⟨600, 300, Nat.pair 5 (specCode ⟨.pass, .jpeg, some (.num 80)⟩)⟩ := by decide
  exact ⟨fun m hm => Resp.noConfusion (h ▸ hm), by decide, by decide⟩

/-- C5 amended: resize parameter validation, excluding the zero-dimension
escape.  A present width or height parsing to a **nonzero** integer outside
[1,4096] yields the 400 "Invalid dimensions" response with no filesystem or
engine activity; a numeric quality outside [1,100] yields a 400 validation
response with no filesystem or engine activity; width=4096 with quality=100 is
accepted (processed and served), while width=4097 and quality=0 are rejected.
(`width=0`/`height=0` bypass the range check — see the counterexample.) -/
theorem resize_validation_amended :
    (∀ db uid fid width height quality format st n,
      parseOptParam width = .num n → n ≠ 0 → (n < 1 ∨ 4096 < n) →
      resizeImage db uid fid width height quality format st =
        ⟨[], .json 400 "Invalid dimensions", st⟩) ∧
    (∀ db uid fid width height quality format st n,
      parseOptParam height = .num n → n ≠ 0 → (n < 1 ∨ 4096 < n) →
      resizeImage db uid fid width height quality format st =
        ⟨[], .json 400 "Invalid dimensions", st⟩) ∧
    (∀ db uid fid width height quality format st n,
      parseWithDefault quality 80 = .num n → (n < 1 ∨ 100 < n) →
      ∃ msg, resizeImage db uid fid width height quality format st =
        ⟨[], .json 400 msg, st⟩) ∧
    (resizeImage dbW 7 1 (some "4096") none (some "100") none stW).resp =
      .file "/up/7/cache/photo_4096xauto_q100.jpeg"
        ⟨600, 300, Nat.pair 5 (specCode ⟨.inside (.num 4096) .null, .jpeg, some (.num 100)⟩)⟩ ∧
    resizeImage dbW 7 1 (some "4097") none none none stW =
      ⟨[], .json 400 "Invalid dimensions", stW⟩ ∧
    resizeImage dbW 7 1 (some "800") none (some "0") none stW =
      ⟨[], .json 400 "Invalid quality", stW⟩ := by
  refine ⟨?_, ?_, ?_, by decide, by decide, by decide⟩
  · intro db uid fid width height quality format st n hp hn hrange
    have htw : truthyOpt width = true := by
      cases htw : truthyOpt width
      · rw [parseOptParam, htw] at hp; simp at hp
      · rfl
    have h1 : (!truthyOpt width && !truthyOpt height) = false := by simp [htw]
    have h2 : ((jsTruthy (parseOptParam width) &&
        (jsLt (parseOptParam width) 1 || jsGt (parseOptParam width) 4096)) ||
      (jsTruthy (parseOptParam height) &&
        (jsLt (parseOptParam height) 1 || jsGt (parseOptParam height) 4096))) = true := by
      rw [hp]
      have ht : jsTruthy (.num n) = true := by simp [jsTruthy]; exact hn
      have hlt : (jsLt (.num n) 1 || jsGt (.num n) 4096) = true := by
        simp [jsLt, jsGt]; omega
      simp [ht, hlt]
    simp only [resizeImage, h1, h2, Bool.false_eq_true, if_false, if_true]
  · intro db uid fid width height quality format st n hp hn hrange
    have htw : truthyOpt height = true := by
      cases htw : truthyOpt height
      · rw [parseOptParam, htw] at hp; simp at hp
      · rfl
    have h1 : (!truthyOpt width && !truthyOpt height) = false := by simp [htw]
    have h2 : ((jsTruthy (parseOptParam width) &&
        (jsLt (parseOptParam width) 1 || jsGt (parseOptParam width) 4096)) ||
      (jsTruthy (parseOptParam height) &&
        (jsLt (parseOptParam height) 1 || jsGt (parseOptParam height) 4096))) = true := by
      rw [hp]
      have ht : jsTruthy (.num n) = true := by simp [jsTruthy]; exact hn
      have hlt : (jsLt (.num n) 1 || jsGt (.num n) 4096) = true := by
        simp [jsLt, jsGt]; omega
      simp [ht, hlt]
    simp only [resizeImage, h1, h2, Bool.false_eq_true, if_false, if_true]
  · intro db uid fid width height quality format st n hp hrange
    by_cases h1 : (!truthyOpt width && !truthyOpt height) = true
    · exact ⟨"Missing parameters", by simp only [resizeImage, h1, if_true]⟩
    · have h1' : (!truthyOpt width && !truthyOpt height) = false := by
        revert h1; cases (!truthyOpt width && !truthyOpt height) <;> simp
      by_cases h2 : ((jsTruthy (parseOptParam width) &&
          (jsLt (parseOptParam width) 1 || jsGt (parseOptParam width) 4096)) ||
        (jsTruthy (parseOptParam height) &&
          (jsLt (parseOptParam height) 1 || jsGt (parseOptParam height) 4096))) = true
      · exact ⟨"Invalid dimensions", by
          simp only [resizeImage, h1', h2, Bool.false_eq_true, if_false, if_true]⟩
      · have h2' : ((jsTruthy (parseOptParam width) &&
            (jsLt (parseOptParam width) 1 || jsGt (parseOptParam width) 4096)) ||
          (jsTruthy (parseOptParam height) &&
            (jsLt (parseOptParam height) 1 || jsGt (parseOptParam height) 4096))) = false := by
          revert h2
          cases ((jsTruthy (parseOptParam width) &&
            (jsLt (parseOptParam width) 1 || jsGt (parseOptParam width) 4096)) ||
          (jsTruthy (parseOptParam height) &&
            (jsLt (parseOptParam height) 1 || jsGt (parseOptParam height) 4096))) <;> simp
        have hq : (jsLt (parseWithDefault quality 80) 1 ||
            jsGt (parseWithDefault quality 80) 100) = true := by
          rw [hp]
          simp [jsLt, jsGt]
          omega
        exact ⟨"Invalid quality", by
          simp only [resizeImage, h1', h2', hq, Bool.false_eq_true, if_false, if_true]⟩

/-- Witness for the amended C5 at width=5000 (nonzero, out of range). -/
theorem resize_validation_amended_witness :
    resizeImage dbW 7 1 (some "5000") none none none stW =
      ⟨[], .json 400 "Invalid dimensions", stW⟩ :=
  resize_validation_amended.1 dbW 7 1 (some "5000") none none none stW 5000
    (by decide) (by decide) (Or.inr (by omega))

/-! ### Claim C7 -/
theorem truthy_of_parse_num {p : Option String} {n : Int}
    (h : jsParseInt (p.getD "") = .num n) : truthyOpt p = true := by
  cases p with
  | none =>
    rw [show (none : Option String).getD "" = "" from rfl,
      show jsParseInt "" = .nan from by decide] at h
    simp at h
  | some s =>
    by_cases hs : s = ""
    · subst hs
      rw [show (some "").getD "" = "" from rfl,
        show jsParseInt "" = .nan from by decide] at h
      simp at h
    · simp [truthyOpt, hs]

theorem FS.read_ensureDir (st : FS) (d : String) (p : String) :
    (st.ensureDir d).read p = st.read p := by
  rw [FS.ensureDir]
  split <;> rfl

/-- C7: crop failure split.  Crop parameters with x,y ≥ 0 and width,height ≥ 1
(and a valid quality) pass validation regardless of the source's actual
dimensions; when the requested region extends beyond the decoded source
dimensions (and the result is not already cached), the request reaches the
engine, whose `extract` rejects the region, and the controller returns the
500-class "Image cropping failed" processing error — never a 4xx validation
error. -/
theorem crop_validation_vs_engine_failure
    (db : List FileRec) (uid fid : Nat) (x y width height quality : Option String)
    (st : FS) (file : FileRec) (src : Img) (xv yv wv hv qv : Int)
    (hx : jsParseInt (x.getD "") = .num xv) (hxv : 0 ≤ xv)
    (hy : jsParseInt (y.getD "") = .num yv) (hyv : 0 ≤ yv)
    (hw : jsParseInt (width.getD "") = .num wv) (hwv : 1 ≤ wv)
    (hh : jsParseInt (height.getD "") = .num hv) (hhv : 1 ≤ hv)
    (hq : parseWithDefault quality 80 = .num qv) (hqv : 1 ≤ qv ∧ qv ≤ 100)
    (hfind : findById db fid uid = some file) (htype : file.file_type = "image")
    (hsrc : st.read file.path = some src)
    (hdecW : 1 ≤ src.width) (hdecH : 1 ≤ src.height)
    (hover : (src.width : Int) < xv + wv ∨ (src.height : Int) < yv + hv)
    (huncached : st.read (pathJoin (pathJoin (dirnameOf file.path) "cache")
      (cropCacheName (stemOf file.filename) (.num xv) (.num yv) (.num wv) (.num hv)
        (.num qv))) = none) :
    cropImage db uid fid x y width height quality st =
      ⟨[.dbLookup, .fsCheck file.path,
          .mkdir (pathJoin (dirnameOf file.path) "cache"),
          .cacheCheck (pathJoin (pathJoin (dirnameOf file.path) "cache")
            (cropCacheName (stemOf file.filename) (.num xv) (.num yv) (.num wv) (.num hv)
              (.num qv))),
          .engine ⟨.cut (.num xv) (.num yv) (.num wv) (.num hv), .jpeg, some (.num qv)⟩],
        .json 500 "Image cropping failed",
        st.ensureDir (pathJoin (dirnameOf file.path) "cache")⟩ := by
  have h1 : (!truthyOpt x || !truthyOpt y || !truthyOpt width || !truthyOpt height) = false := by
    simp [truthy_of_parse_num hx, truthy_of_parse_num hy,
      truthy_of_parse_num hw, truthy_of_parse_num hh]
  have h2 : (jsLt (JVal.num xv) 0 || jsLt (JVal.num yv) 0 ||
      jsLt (JVal.num wv) 1 || jsLt (JVal.num hv) 1) = false := by
    simp [jsLt]
    omega
  have h3 : (jsLt (JVal.num qv) 1 || jsGt (JVal.num qv) 100) = false := by
    simp [jsLt, jsGt]
    omega
  have ht : (file.file_type != "image") = false := by simp [htype]
  have hcache : ((st.ensureDir (pathJoin (dirnameOf file.path) "cache")).read
      (pathJoin (pathJoin (dirnameOf file.path) "cache")
        (cropCacheName (stemOf file.filename) (.num xv) (.num yv) (.num wv) (.num hv)
          (.num qv)))) = none := by
    rw [FS.read_ensureDir, huncached]
  have hrun : sharpRun src
      ⟨.cut (.num xv) (.num yv) (.num wv) (.num hv), .jpeg, some (.num qv)⟩ =
      .error "extract_area: bad extract area" := by
    rw [sharpRun]
    have hdec : (src.width == 0 || src.height == 0) = false := by
      simp
      omega
    rw [hdec]
    simp only [Bool.false_eq_true, if_false]
    have hbad : (decide (0 ≤ xv) && decide (0 ≤ yv) && decide (1 ≤ wv) && decide (1 ≤ hv) &&
        decide (xv + wv ≤ (src.width : Int)) &&
        decide (yv + hv ≤ (src.height : Int))) = false := by
      simp
      omega
    simp only [hbad, Bool.false_eq_true, if_false]
  simp only [cropImage, hx, hy, hw, hh, hq, h1, h2, h3, hfind, ht, hsrc, hcache, hrun,
    Option.isSome_none, Bool.false_eq_true, if_false, if_true]
  simp


/-- Witness for C7: a 700-wide crop of the 600×300 source passes validation
and fails at the engine with the 500 processing error. -/
theorem crop_validation_vs_engine_failure_witness :
    cropImage dbW 7 1 (some "0") (some "0") (some "700") (some "100") none stW =
      ⟨[.dbLookup, .fsCheck "/up/7/photo.jpg", .mkdir "/up/7/cache",
          .cacheCheck "/up/7/cache/photo_crop_0_0_700_100_q80.jpg",
          .engine ⟨.cut (.num 0) (.num 0) (.num 700) (.num 100), .jpeg, some (.num 80)⟩],
        .json 500 "Image cropping failed", stW.ensureDir "/up/7/cache"⟩ := by
  have h := crop_validation_vs_engine_failure dbW 7 1 (some "0") (some "0") (some "700")
    (some "100") none stW fileW imgW 0 0 700 100 80
    (by decide) (by decide) (by decide) (by decide) (by decide) (by decide)
    (by decide) (by decide) (by decide) (by decide)
    (by decide) (by decide) (by decide) (by decide) (by decide)
    (Or.inl (by decide)) (by decide)
  exact h

/-! ### Claim C1 -/
theorem FS.ensureDir_contains (st : FS) (d : String) :
    ((st.ensureDir d).dirs.contains d) = true := by
  rw [FS.ensureDir]
  split
  · assumption
  · simp

theorem FS.ensureDir_of_contains {st : FS} {d : String}
    (h : st.dirs.contains d = true) : st.ensureDir d = st := by
  rw [FS.ensureDir, if_pos h]

theorem FS.dirs_ensureDir_write (st : FS) (d p : String) (b : Img) :
    ((st.ensureDir d).write p b).dirs = (st.ensureDir d).dirs := rfl

/-- Cache idempotence of `resizeImage`: for a valid resize request on an
initially uncached image asset whose first call succeeds, the first call
invokes the engine exactly once and stores the result in the cache, and the
second identical call performs no engine invocation (pure cache hit), returns
the byte-identical response, and leaves the filesystem exactly as the first
call left it. -/
theorem derive_cache_idempotent
    (db : List FileRec) (uid fid : Nat) (width height quality format : Option String)
    (st : FS) (file : FileRec) (src b : Img) (w h q : JVal) (ext : String)
    (cd cp : String) (sp : EncodeSpec)
    (h1 : (!truthyOpt width && !truthyOpt height) = false)
    (hpw : parseOptParam width = w) (hph : parseOptParam height = h)
    (hpq : parseWithDefault quality 80 = q)
    (h2 : ((jsTruthy w && (jsLt w 1 || jsGt w 4096)) ||
      (jsTruthy h && (jsLt h 1 || jsGt h 4096))) = false)
    (h3 : (jsLt q 1 || jsGt q 100) = false)
    (hfind : findById db fid uid = some file) (htype : file.file_type = "image")
    (hsrc : st.read file.path = some src)
    (hext : (if truthyOpt format then format.getD "" else "jpeg") = ext)
    (hcd : pathJoin (dirnameOf file.path) "cache" = cd)
    (hcp : pathJoin cd (resizeCacheName (stemOf file.filename) w h q ext) = cp)
    (hsp : EncodeSpec.mk (if jsTruthy w || jsTruthy h then .inside w h else .pass)
      (resizeFmt format) (some q) = sp)
    (huncached : st.read cp = none)
    (hrun : sharpRun src sp = .ok b) :
    resizeImage db uid fid width height quality format st =
      ⟨[.dbLookup, .fsCheck file.path, .mkdir cd, .cacheCheck cp, .engine sp],
        .file cp b, (st.ensureDir cd).write cp b⟩ ∧
    resizeImage db uid fid width height quality format
        ((st.ensureDir cd).write cp b) =
      ⟨[.dbLookup, .fsCheck file.path, .mkdir cd, .cacheCheck cp],
        .file cp b, (st.ensureDir cd).write cp b⟩ ∧
    countEngine [Ev.dbLookup, .fsCheck file.path, .mkdir cd, .cacheCheck cp, .engine sp] = 1 ∧
    countEngine [Ev.dbLookup, .fsCheck file.path, .mkdir cd, .cacheCheck cp] = 0 := by
  have ht : (file.file_type != "image") = false := by simp [htype]
  have hne : file.path ≠ cp := by
    intro he
    rw [he, huncached] at hsrc
    exact Option.noConfusion hsrc
  have hmiss : (st.ensureDir cd).read cp = none := by
    rw [FS.read_ensureDir, huncached]
  have hr1 : resizeImage db uid fid width height quality format st =
      ⟨[.dbLookup, .fsCheck file.path, .mkdir cd, .cacheCheck cp, .engine sp],
        .file cp b, (st.ensureDir cd).write cp b⟩ := by
    simp only [resizeImage, h1, hpw, hph, hpq, h2, h3, hfind, ht, hsrc, hext, hcd, hcp,
      hsp, hmiss, hrun, Option.isSome_none, Bool.false_eq_true, if_false, if_true,
      sendFileR, FS.read_write_self]
    simp
  have hsrc2 : ((st.ensureDir cd).write cp b).read file.path = some src := by
    rw [FS.read_write_ne _ _ hne, FS.read_ensureDir, hsrc]
  have hdirs : (((st.ensureDir cd).write cp b).dirs.contains cd) = true := by
    rw [FS.dirs_write]
    exact FS.ensureDir_contains st cd
  have hed2 : ((st.ensureDir cd).write cp b).ensureDir cd = (st.ensureDir cd).write cp b :=
    FS.ensureDir_of_contains hdirs
  have hhit : ((st.ensureDir cd).write cp b).read cp = some b := FS.read_write_self _ _ _
  have hr2 : resizeImage db uid fid width height quality format
      ((st.ensureDir cd).write cp b) =
      ⟨[.dbLookup, .fsCheck file.path, .mkdir cd, .cacheCheck cp],
        .file cp b, (st.ensureDir cd).write cp b⟩ := by
    simp only [resizeImage, h1, hpw, hph, hpq, h2, h3, hfind, ht, hsrc2, hext, hcd, hcp,
      hsp, hed2, hhit, Option.isSome_some, Bool.false_eq_true, if_false, if_true,
      sendFileR, FS.read_write_self]
  refine ⟨hr1, hr2, by simp [countEngine], by simp [countEngine]⟩


/-- A concrete resize of the sample asset run twice. -/
theorem derive_cache_idempotent_witness :
    resizeImage dbW 7 1 (some "800") none none none stW =
      ⟨[.dbLookup, .fsCheck "/up/7/photo.jpg", .mkdir "/up/7/cache",
          .cacheCheck "/up/7/cache/photo_800xauto_q80.jpeg",
          .engine ⟨.inside (.num 800) .null, .jpeg, some (.num 80)⟩],
        .file "/up/7/cache/photo_800xauto_q80.jpeg"
          ⟨600, 300, Nat.pair 5 (specCode ⟨.inside (.num 800) .null, .jpeg, some (.num 80)⟩)⟩,
        (stW.ensureDir "/up/7/cache").write "/up/7/cache/photo_800xauto_q80.jpeg"
          ⟨600, 300, Nat.pair 5 (specCode ⟨.inside (.num 800) .null, .jpeg, some (.num 80)⟩)⟩⟩ ∧
    resizeImage dbW 7 1 (some "800") none none none
        ((stW.ensureDir "/up/7/cache").write "/up/7/cache/photo_800xauto_q80.jpeg"
          ⟨600, 300, Nat.pair 5 (specCode ⟨.inside (.num 800) .null, .jpeg, some (.num 80)⟩)⟩) =
      ⟨[.dbLookup, .fsCheck "/up/7/photo.jpg", .mkdir "/up/7/cache",
          .cacheCheck "/up/7/cache/photo_800xauto_q80.jpeg"],
        .file "/up/7/cache/photo_800xauto_q80.jpeg"
          ⟨600, 300, Nat.pair 5 (specCode ⟨.inside (.num 800) .null, .jpeg, some (.num 80)⟩)⟩,
        (stW.ensureDir "/up/7/cache").write "/up/7/cache/photo_800xauto_q80.jpeg"
          ⟨600, 300, Nat.pair 5 (specCode ⟨.inside (.num 800) .null, .jpeg, some (.num 80)⟩)⟩⟩ ∧
    countEngine [Ev.dbLookup, .fsCheck "/up/7/photo.jpg", .mkdir "/up/7/cache",
      .cacheCheck "/up/7/cache/photo_800xauto_q80.jpeg",
      .engine ⟨.inside (.num 800) .null, .jpeg, some (.num 80)⟩] = 1 ∧
    countEngine [Ev.dbLookup, .fsCheck "/up/7/photo.jpg", .mkdir "/up/7/cache",
      .cacheCheck "/up/7/cache/photo_800xauto_q80.jpeg"] = 0 :=
  derive_cache_idempotent dbW 7 1 (some "800") none none none stW fileW imgW
    ⟨600, 300, Nat.pair 5 (specCode ⟨.inside (.num 800) .null, .jpeg, some (.num 80)⟩)⟩
    (.num 800) .null (.num 80) "jpeg" "/up/7/cache"
    "/up/7/cache/photo_800xauto_q80.jpeg"
    ⟨.inside (.num 800) .null, .jpeg, some (.num 80)⟩
    (by decide) (by decide) (by decide) (by decide) (by decide) (by decide) (by decide)
    (by decide) (by decide) (by decide) (by decide) (by decide) (by decide) (by decide)
    rfl

/-! ### Claims C3 and C4 -/
theorem roundScale_ge {a p qd s : Nat} (hq : 1 ≤ qd) (h : s * qd ≤ p * a) :
    s ≤ roundScale a (p, qd) := by
  rw [roundScale, Nat.le_div_iff_mul_le (by omega : 0 < 2 * qd)]
  nlinarith

theorem roundScale_same {x s : Nat} (hx : 1 ≤ x) : roundScale x (s, x) = s := by
  rw [roundScale]
  have h1 : 2 * x * s + x = 2 * x * s + x := rfl
  rw [show 2 * x * s = 2 * x * s from rfl, mul_assoc 2 x s]
  rw [show 2 * (x * s) + x = (2 * x) * s + x by ring]
  rw [Nat.mul_add_div (by omega : 0 < 2 * x), Nat.div_eq_of_lt (by omega)]
  omega

theorem coverFit_exact {W H s : Nat} (hW : 1 ≤ W) (hH : 1 ≤ H) :
    coverFit W H s = (s, s) := by
  unfold coverFit fracMax fracLe
  by_cases hc : s * H ≤ s * W
  · rw [if_pos (by simpa using hc)]
    have hsw : s ≤ roundScale W (s, H) := roundScale_ge hH (by nlinarith)
    have hsh : roundScale H (s, H) = s := roundScale_same hH
    show (min s ((roundScale W (s, H)).max 1), min s ((roundScale H (s, H)).max 1)) = (s, s)
    rw [hsh]
    have e1 : min s ((roundScale W (s, H)).max 1) = s :=
      Nat.min_eq_left (le_trans hsw (Nat.le_max_left _ _))
    have e2 : min s (s.max 1) = s := Nat.min_eq_left (Nat.le_max_left _ _)
    rw [e1, e2]
  · rw [if_neg (by simpa using hc)]
    have hc' : s * W ≤ s * H := by omega
    have hsh : s ≤ roundScale H (s, W) := roundScale_ge hW (by nlinarith)
    have hsw : roundScale W (s, W) = s := roundScale_same hW
    show (min s ((roundScale W (s, W)).max 1), min s ((roundScale H (s, W)).max 1)) = (s, s)
    rw [hsw]
    have e1 : min s (s.max 1) = s := Nat.min_eq_left (Nat.le_max_left _ _)
    have e2 : min s ((roundScale H (s, W)).max 1) = s :=
      Nat.min_eq_left (le_trans hsh (Nat.le_max_left _ _))
    rw [e1, e2]


/-- Symbolic execution of `generateThumbnail` past a bypassed default-thumbnail
shortcut down to the engine call. -/
theorem generateThumbnail_run
    (db : List FileRec) (uid fid : Nat) (size quality : Option String) (st : FS)
    (file : FileRec) (src : Img) (s q : JVal) (cd cp : String)
    (hs : parseWithDefault size 300 = s) (hq : parseWithDefault quality 80 = q)
    (h1 : (jsLt s 50 || jsGt s 1000) = false)
    (h2 : (jsLt q 1 || jsGt q 100) = false)
    (hfind : findById db fid uid = some file) (htype : file.file_type = "image")
    (hsrc : st.read file.path = some src)
    (hby : defaultThumbHit st file s = false)
    (hcd : pathJoin (dirnameOf file.path) "cache" = cd)
    (hcp : pathJoin cd (thumbCacheName (stemOf file.filename) s q) = cp)
    (huncached : st.read cp = none) :
    (generateThumbnail db uid fid size quality st).resp =
      (match sharpRun src ⟨.cover s, .jpeg, some q⟩ with
        | .ok b => .file cp b
        | .error _ => .json 500 "Thumbnail generation failed") := by
  have ht : (file.file_type != "image") = false := by simp [htype]
  have hmiss : (st.ensureDir cd).read cp = none := by
    rw [FS.read_ensureDir, huncached]
  cases hrun : sharpRun src ⟨.cover s, .jpeg, some q⟩ with
  | error e =>
    simp only [generateThumbnail, hs, hq, h1, h2, hfind, ht, hsrc, hby, hcd, hcp, hmiss,
      hrun, Option.isSome_none, Bool.false_eq_true, if_false, if_true]
  | ok b =>
    simp only [generateThumbnail, hs, hq, h1, h2, hfind, ht, hsrc, hby, hcd, hcp, hmiss,
      hrun, Option.isSome_none, Bool.false_eq_true, if_false, if_true,
      sendFileR, FS.read_write_self]

/-- C3 counterexample: two worlds with identical source bytes for the same
asset — differing only in whether the upload-time default thumbnail file is on
disk — give different responses to the identical thumbnail request
(size=300): without the file the engine generates a 300×300 cover-fit
derivative; with it the controller serves the 300×150 default thumbnail.  The
output is therefore not fully determined by (asset id, operation, canonical
parameters). -/
theorem no_hidden_state_counterexample :
    stW.read fileP.path = stP.read fileP.path ∧
    (generateThumbnail dbW 7 3 (some "300") none stW).resp ≠
      (generateThumbnail dbW 7 3 (some "300") none stP).resp := by
  constructor
  · decide
  · decide

/-- Thumbnail determinism off the shortcut: no hidden state except the
size-300 default-thumbnail shortcut.  For every thumbnail request whose parsed size is not 300, the
response is fully determined by the registry record, the source bytes and the
canonical parameters: any two filesystem states holding the same source bytes
(and no cached derivative under the key) — regardless of any default-thumbnail
file or other state — produce identical responses. -/
theorem thumbnail_no_hidden_state_amended
    (db : List FileRec) (uid fid : Nat) (size quality : Option String) (st1 st2 : FS)
    (file : FileRec) (src : Img) (s q : JVal) (cd cp : String)
    (hs : parseWithDefault size 300 = s) (hq : parseWithDefault quality 80 = q)
    (hsn : s ≠ .num 300)
    (h1 : (jsLt s 50 || jsGt s 1000) = false)
    (h2 : (jsLt q 1 || jsGt q 100) = false)
    (hfind : findById db fid uid = some file) (htype : file.file_type = "image")
    (hsrc1 : st1.read file.path = some src) (hsrc2 : st2.read file.path = some src)
    (hcd : pathJoin (dirnameOf file.path) "cache" = cd)
    (hcp : pathJoin cd (thumbCacheName (stemOf file.filename) s q) = cp)
    (hu1 : st1.read cp = none) (hu2 : st2.read cp = none) :
    (generateThumbnail db uid fid size quality st1).resp =
      (generateThumbnail db uid fid size quality st2).resp := by
  have hby1 : defaultThumbHit st1 file s = false := by
    rw [defaultThumbHit]
    cases file.thumbnail_path with
    | none => rfl
    | some tp => simp [beq_eq_false_iff_ne.mpr hsn]
  have hby2 : defaultThumbHit st2 file s = false := by
    rw [defaultThumbHit]
    cases file.thumbnail_path with
    | none => rfl
    | some tp => simp [beq_eq_false_iff_ne.mpr hsn]
  rw [generateThumbnail_run db uid fid size quality st1 file src s q cd cp hs hq h1 h2
      hfind htype hsrc1 hby1 hcd hcp hu1,
    generateThumbnail_run db uid fid size quality st2 file src s q cd cp hs hq h1 h2
      hfind htype hsrc2 hby2 hcd hcp hu2]


/-- A size-400 request answers identically with and without the default
thumbnail on disk. -/
theorem thumbnail_no_hidden_state_amended_witness :
    (generateThumbnail dbW 7 3 (some "400") none stW).resp =
      (generateThumbnail dbW 7 3 (some "400") none stP).resp :=
  thumbnail_no_hidden_state_amended dbW 7 3 (some "400") none stW stP fileP imgW
    (.num 400) (.num 80) "/up/7/cache" "/up/7/cache/pic_thumb_400x400_q80.jpg"
    (by decide) (by decide) (by decide) (by decide) (by decide) (by decide) (by decide)
    (by decide) (by decide) (by decide) (by decide) (by decide) (by decide)

/-- C4 amended: exact-size thumbnail off the default-thumbnail shortcut.  For
every accepted thumbnail request with numeric size S ∈ [50,1000] and valid
quality on a decodable source, when the size-300 default-thumbnail shortcut
does not fire, the returned image is exactly S×S (centered cover fit),
regardless of the source's aspect ratio. -/
theorem thumbnail_exact_size_amended
    (db : List FileRec) (uid fid : Nat) (size quality : Option String) (st : FS)
    (file : FileRec) (src : Img) (sv qv : Int) (cd cp : String)
    (hs : parseWithDefault size 300 = .num sv) (hsv : 50 ≤ sv ∧ sv ≤ 1000)
    (hq : parseWithDefault quality 80 = .num qv) (hqv : 1 ≤ qv ∧ qv ≤ 100)
    (hfind : findById db fid uid = some file) (htype : file.file_type = "image")
    (hsrc : st.read file.path = some src)
    (hdW : 1 ≤ src.width) (hdH : 1 ≤ src.height)
    (hby : defaultThumbHit st file (.num sv) = false)
    (hcd : pathJoin (dirnameOf file.path) "cache" = cd)
    (hcp : pathJoin cd (thumbCacheName (stemOf file.filename) (.num sv) (.num qv)) = cp)
    (huncached : st.read cp = none) :
    (generateThumbnail db uid fid size quality st).resp =
      .file cp ⟨sv.toNat, sv.toNat,
        Nat.pair src.data (specCode ⟨.cover (.num sv), .jpeg, some (.num qv)⟩)⟩ := by
  have h1 : (jsLt (JVal.num sv) 50 || jsGt (JVal.num sv) 1000) = false := by
    simp [jsLt, jsGt]
    omega
  have h2 : (jsLt (JVal.num qv) 1 || jsGt (JVal.num qv) 100) = false := by
    simp [jsLt, jsGt]
    omega
  have hrun : sharpRun src ⟨.cover (.num sv), .jpeg, some (.num qv)⟩ =
      .ok ⟨sv.toNat, sv.toNat,
        Nat.pair src.data (specCode ⟨.cover (.num sv), .jpeg, some (.num qv)⟩)⟩ := by
    rw [sharpRun]
    have hdec : (src.width == 0 || src.height == 0) = false := by
      simp
      omega
    rw [hdec]
    simp only [Bool.false_eq_true, if_false]
    rw [if_pos (by omega : (1 : Int) ≤ sv)]
    rw [coverFit_exact hdW hdH]
    have hqb : (decide (1 ≤ qv) && decide (qv ≤ 100)) = true := by
      simp
      omega
    simp only [hqb, if_true]
  rw [generateThumbnail_run db uid fid size quality st file src (.num sv) (.num qv) cd cp
    hs hq h1 h2 hfind htype hsrc hby hcd hcp huncached]
  rw [hrun]

/-- C4 counterexample: an accepted size-300 thumbnail request (50 ≤ 300 ≤
1000) on the decodable 600×300 source returns the upload-time default
thumbnail — the inside-fit 300×150 image — not a 300×300 one, because the
controller serves `thumbnail_path` whenever it exists and `s === 300`. -/
theorem thumbnail_exact_size_counterexample :
    uploadDefaultThumbnail imgW =
      .ok ⟨300, 150,
        Nat.pair 5 (specCode ⟨.inside (.num 300) (.num 300), .jpeg, some (.num 80)⟩)⟩ ∧
    (generateThumbnail dbW 7 3 (some "300") none stP).resp =
      .file "/up/7/pic_thumb.jpg"
        ⟨300, 150,
          Nat.pair 5 (specCode ⟨.inside (.num 300) (.num 300), .jpeg, some (.num 80)⟩)⟩ ∧
    (150 : Nat) ≠ 300 :=
  ⟨rfl, by decide, by decide⟩

/-- Witness for the amended C4: a size-400 request returns an exactly 400×400
image. -/
theorem thumbnail_exact_size_amended_witness :
    (generateThumbnail dbW 7 1 (some "400") none stW).resp =
      .file "/up/7/cache/photo_thumb_400x400_q80.jpg"
        ⟨400, 400, Nat.pair 5 (specCode ⟨.cover (.num 400), .jpeg, some (.num 80)⟩)⟩ :=
  thumbnail_exact_size_amended dbW 7 1 (some "400") none stW fileW imgW 400 80
    "/up/7/cache" "/up/7/cache/photo_thumb_400x400_q80.jpg"
    (by decide) (by decide) (by decide) (by decide) (by decide) (by decide) (by decide)
    (by decide) (by decide) (by decide) (by decide) (by decide) (by decide)

/-! ### Claim C6 -/
theorem roundScale_one (a : Nat) : roundScale a (1, 1) = a := by
  simp [roundScale]
  omega

theorem truthy_of_parseOpt_num {p : Option String} {n : Int}
    (h : parseOptParam p = .num n) : truthyOpt p = true := by
  cases htw : truthyOpt p
  · rw [parseOptParam, htw] at h
    simp at h
  · rfl

theorem fracMin_one_left {a b : Nat} (hab : b ≤ a) : fracMin (1, 1) (a, b) = (1, 1) := by
  rw [fracMin, if_pos]
  rw [fracLe]
  simp
  omega

theorem insideFit_noUpscale {W H w : Nat} (hW : 1 ≤ W) (hH : 1 ≤ H) (hw : W ≤ w)
    (h : Option Nat) (hh : ∀ n ∈ h, H ≤ n) :
    insideFit W H (some w) h = (W, H) := by
  cases h with
  | none =>
    show ((roundScale W (fracMin (fracMin (1, 1) (w, W)) (1, 1))).max 1,
      (roundScale H (fracMin (fracMin (1, 1) (w, W)) (1, 1))).max 1) = (W, H)
    rw [fracMin_one_left hw, fracMin_one_left (le_refl 1), roundScale_one, roundScale_one]
    simp only [Prod.mk.injEq]
    exact ⟨Nat.max_eq_left hW, Nat.max_eq_left hH⟩
  | some n =>
    have hn : H ≤ n := hh n rfl
    show ((roundScale W (fracMin (fracMin (1, 1) (w, W)) (n, H))).max 1,
      (roundScale H (fracMin (fracMin (1, 1) (w, W)) (n, H))).max 1) = (W, H)
    rw [fracMin_one_left hw, fracMin_one_left hn, roundScale_one, roundScale_one]
    simp only [Prod.mk.injEq]
    exact ⟨Nat.max_eq_left hW, Nat.max_eq_left hH⟩


/-- Engine half of C6: an inside-fit resize whose present dimensions each meet
or exceed the corresponding decoded source dimension returns the source
dimensions unchanged. -/
theorem insideFit_ge {W H : Nat} (hW : 1 ≤ W) (hH : 1 ≤ H)
    (w h : Option Nat) (hw : ∀ n ∈ w, W ≤ n) (hh : ∀ n ∈ h, H ≤ n) :
    insideFit W H w h = (W, H) := by
  cases w with
  | none =>
    cases h with
    | none =>
      show ((roundScale W (fracMin (fracMin (1, 1) (1, 1)) (1, 1))).max 1,
        (roundScale H (fracMin (fracMin (1, 1) (1, 1)) (1, 1))).max 1) = (W, H)
      rw [fracMin_one_left (le_refl 1), fracMin_one_left (le_refl 1), roundScale_one,
        roundScale_one]
      simp only [Prod.mk.injEq]
      exact ⟨Nat.max_eq_left hW, Nat.max_eq_left hH⟩
    | some n =>
      have hn : H ≤ n := hh n rfl
      show ((roundScale W (fracMin (fracMin (1, 1) (1, 1)) (n, H))).max 1,
        (roundScale H (fracMin (fracMin (1, 1) (1, 1)) (n, H))).max 1) = (W, H)
      rw [fracMin_one_left (le_refl 1), fracMin_one_left hn, roundScale_one,
        roundScale_one]
      simp only [Prod.mk.injEq]
      exact ⟨Nat.max_eq_left hW, Nat.max_eq_left hH⟩
  | some m =>
    exact insideFit_noUpscale hW hH (hw m rfl) h hh

/-- Engine run for C6: the controller-built inside resize with both parameters
absent or over-sized succeeds and keeps the decoded dimensions. -/
theorem resize_upscale_run (src : Img) (w h : JVal) (fmt : OutFmt) (qv : Int)
    (hdW : 1 ≤ src.width) (hdH : 1 ≤ src.height) (hqv : 1 ≤ qv ∧ qv ≤ 100)
    (hwcase : w = .null ∨ ∃ wv : Int, w = .num wv ∧ 1 ≤ wv ∧ (src.width : Int) ≤ wv)
    (hhcase : h = .null ∨ ∃ hv : Int, h = .num hv ∧ 1 ≤ hv ∧ (src.height : Int) ≤ hv) :
    sharpRun src ⟨.inside w h, fmt, some (.num qv)⟩ =
      .ok ⟨src.width, src.height,
        Nat.pair src.data (specCode ⟨.inside w h, fmt, some (.num qv)⟩)⟩ := by
  have hdec : (src.width == 0 || src.height == 0) = false := by
    simp
    omega
  have hqb : (decide (1 ≤ qv) && decide (qv ≤ 100)) = true := by
    simp
    omega
  rcases hwcase with hw0 | ⟨wv, hwv, hwv1, hwv2⟩ <;>
    rcases hhcase with hh0 | ⟨hv, hhv, hhv1, hhv2⟩
  · subst hw0; subst hh0
    rw [sharpRun, hdec]
    simp only [Bool.false_eq_true, if_false]
    simp only [insideFit_ge hdW hdH none none (by simp) (by simp), hqb, if_true]
  · subst hw0; subst hhv
    rw [sharpRun, hdec]
    simp only [Bool.false_eq_true, if_false]
    rw [if_pos (by omega : (1 : Int) ≤ hv)]
    simp only [insideFit_ge hdW hdH none (some hv.toNat) (by simp) (by
      intro m hm
      simp at hm
      omega), hqb, if_true]
  · subst hwv; subst hh0
    rw [sharpRun, hdec]
    simp only [Bool.false_eq_true, if_false]
    rw [if_pos (by omega : (1 : Int) ≤ wv)]
    simp only [insideFit_ge hdW hdH (some wv.toNat) none (by
      intro m hm
      simp at hm
      omega) (by simp), hqb, if_true]
  · subst hwv; subst hhv
    rw [sharpRun, hdec]
    simp only [Bool.false_eq_true, if_false]
    rw [if_pos (by omega : (1 : Int) ≤ wv), if_pos (by omega : (1 : Int) ≤ hv)]
    simp only [insideFit_ge hdW hdH (some wv.toNat) (some hv.toNat) (by
      intro m hm
      simp at hm
      omega) (by
      intro m hm
      simp at hm
      omega), hqb, if_true]

/-- C6: shrink-only resize.  For every accepted resize request in which at
least one of width and height is given and every given dimension meets or
exceeds the corresponding decoded source dimension (width-only, height-only,
or both), the returned image has exactly the original dimensions — never
upscaled, hence no larger than the original in either dimension and (when both
dimensions are given) inside the requested bounding box with the aspect ratio
preserved. -/
theorem resize_never_upscales
    (db : List FileRec) (uid fid : Nat) (width height quality format : Option String)
    (st : FS) (file : FileRec) (src : Img) (qv : Int) (w h : JVal) (ext cd cp : String)
    (hpw : parseOptParam width = w) (hph : parseOptParam height = h)
    (hwcase : w = .null ∨ ∃ wv : Int, w = .num wv ∧ 1 ≤ wv ∧ wv ≤ 4096 ∧
      (src.width : Int) ≤ wv)
    (hhcase : h = .null ∨ ∃ hv : Int, h = .num hv ∧ 1 ≤ hv ∧ hv ≤ 4096 ∧
      (src.height : Int) ≤ hv)
    (hpresent : w ≠ .null ∨ h ≠ .null)
    (hpq : parseWithDefault quality 80 = .num qv) (hqv : 1 ≤ qv ∧ qv ≤ 100)
    (hfind : findById db fid uid = some file) (htype : file.file_type = "image")
    (hsrc : st.read file.path = some src) (hdW : 1 ≤ src.width) (hdH : 1 ≤ src.height)
    (hext : (if truthyOpt format then format.getD "" else "jpeg") = ext)
    (hcd : pathJoin (dirnameOf file.path) "cache" = cd)
    (hcp : pathJoin cd (resizeCacheName (stemOf file.filename) w h (.num qv) ext) = cp)
    (huncached : st.read cp = none) :
    (resizeImage db uid fid width height quality format st).resp =
      .file cp ⟨src.width, src.height,
        Nat.pair src.data
          (specCode ⟨.inside w h, resizeFmt format, some (.num qv)⟩)⟩ := by
  have ht : (file.file_type != "image") = false := by simp [htype]
  have hmiss : (st.ensureDir cd).read cp = none := by
    rw [FS.read_ensureDir, huncached]
  have h1 : (!truthyOpt width && !truthyOpt height) = false := by
    rcases hpresent with hwn | hhn
    · rcases hwcase with hw0 | ⟨wv, hwv, _, _, _⟩
      · exact absurd hw0 hwn
      · simp [truthy_of_parseOpt_num (hwv ▸ hpw)]
    · rcases hhcase with hh0 | ⟨hv, hhv, _, _, _⟩
      · exact absurd hh0 hhn
      · simp [truthy_of_parseOpt_num (hhv ▸ hph)]
  have hwp : (jsTruthy w && (jsLt w 1 || jsGt w 4096)) = false := by
    rcases hwcase with hw0 | ⟨wv, hwv, _, _, _⟩
    · subst hw0; rfl
    · subst hwv; simp [jsTruthy, jsLt, jsGt]; omega
  have hhp : (jsTruthy h && (jsLt h 1 || jsGt h 4096)) = false := by
    rcases hhcase with hh0 | ⟨hv, hhv, _, _, _⟩
    · subst hh0; rfl
    · subst hhv; simp [jsTruthy, jsLt, jsGt]; omega
  have h2 : ((jsTruthy w && (jsLt w 1 || jsGt w 4096)) ||
      (jsTruthy h && (jsLt h 1 || jsGt h 4096))) = false := by
    simp [hwp, hhp]
  have h3 : (jsLt (JVal.num qv) 1 || jsGt (JVal.num qv) 100) = false := by
    simp [jsLt, jsGt]
    omega
  have hop : (jsTruthy w || jsTruthy h) = true := by
    rcases hpresent with hwn | hhn
    · rcases hwcase with hw0 | ⟨wv, hwv, hwv1, _, _⟩
      · exact absurd hw0 hwn
      · subst hwv
        have : jsTruthy (JVal.num wv) = true := by simp [jsTruthy]; omega
        simp [this]
    · rcases hhcase with hh0 | ⟨hv, hhv, hhv1, _, _⟩
      · exact absurd hh0 hhn
      · subst hhv
        have : jsTruthy (JVal.num hv) = true := by simp [jsTruthy]; omega
        simp [this]
  have hrun : sharpRun src ⟨.inside w h, resizeFmt format, some (.num qv)⟩ =
      .ok ⟨src.width, src.height,
        Nat.pair src.data
          (specCode ⟨.inside w h, resizeFmt format, some (.num qv)⟩)⟩ :=
    resize_upscale_run src w h (resizeFmt format) qv hdW hdH hqv
      (by rcases hwcase with hw0 | ⟨wv, hwv, a, _, c⟩
          · exact Or.inl hw0
          · exact Or.inr ⟨wv, hwv, a, c⟩)
      (by rcases hhcase with hh0 | ⟨hv, hhv, a, _, c⟩
          · exact Or.inl hh0
          · exact Or.inr ⟨hv, hhv, a, c⟩)
  simp only [resizeImage, h1, hpw, hph, hpq, h2, h3, hfind, ht, hsrc, hext, hcd, hcp,
    hop, hmiss, hrun, Option.isSome_none, Bool.false_eq_true, if_false, if_true,
    sendFileR, FS.read_write_self]


/-- Witness for C6, exercising the height-only case: requesting height 4000 of
the 600×300 source returns a 600×300 image. -/
theorem resize_never_upscales_witness :
    (resizeImage dbW 7 1 none (some "4000") none none stW).resp =
      .file "/up/7/cache/photo_autox4000_q80.jpeg"
        ⟨600, 300,
          Nat.pair 5 (specCode ⟨.inside .null (.num 4000), .jpeg, some (.num 80)⟩)⟩ :=
  resize_never_upscales dbW 7 1 none (some "4000") none none stW fileW imgW 80
    .null (.num 4000) "jpeg" "/up/7/cache" "/up/7/cache/photo_autox4000_q80.jpeg"
    (by decide) (by decide) (Or.inl rfl)
    (Or.inr ⟨4000, rfl, by decide, by decide, by decide⟩) (Or.inr (by decide))
    (by decide) (by decide) (by decide) (by decide) (by decide) (by decide) (by decide)
    (by decide) (by decide) (by decide) (by decide)

/-! ### Claim C9 -/
/-- C9 helper: a resize request with a non-numeric quality string passes
validation (NaN compares false both ways) and reaches the engine carrying
`NaN` as the quality. -/
theorem nanq_resize
    (db : List FileRec) (uid fid : Nat) (width height : Option String) (qs : String)
    (format : Option String) (st : FS) (file : FileRec) (src : Img) (ext cd cp : String)
    (hq : jsParseInt qs = .nan)
    (h1 : (!truthyOpt width && !truthyOpt height) = false)
    (h2 : ((jsTruthy (parseOptParam width) &&
        (jsLt (parseOptParam width) 1 || jsGt (parseOptParam width) 4096)) ||
      (jsTruthy (parseOptParam height) &&
        (jsLt (parseOptParam height) 1 || jsGt (parseOptParam height) 4096))) = false)
    (hfind : findById db fid uid = some file) (htype : file.file_type = "image")
    (hsrc : st.read file.path = some src)
    (hext : (if truthyOpt format then format.getD "" else "jpeg") = ext)
    (hcd : pathJoin (dirnameOf file.path) "cache" = cd)
    (hcp : pathJoin cd (resizeCacheName (stemOf file.filename) (parseOptParam width)
      (parseOptParam height) .nan ext) = cp)
    (huncached : st.read cp = none) :
    (∀ m, (resizeImage db uid fid width height (some qs) format st).resp ≠ .json 400 m) ∧
    Ev.engine ⟨(if jsTruthy (parseOptParam width) || jsTruthy (parseOptParam height) then
        SharpOp.inside (parseOptParam width) (parseOptParam height) else .pass),
      resizeFmt format, some .nan⟩ ∈
      (resizeImage db uid fid width height (some qs) format st).trace := by
  have hq' : parseWithDefault (some qs) 80 = .nan := hq
  have h3 : (jsLt JVal.nan 1 || jsGt JVal.nan 100) = false := rfl
  have ht : (file.file_type != "image") = false := by simp [htype]
  have hmiss : (st.ensureDir cd).read cp = none := by
    rw [FS.read_ensureDir, huncached]
  cases hrun : sharpRun src ⟨(if jsTruthy (parseOptParam width) ||
      jsTruthy (parseOptParam height) then
      SharpOp.inside (parseOptParam width) (parseOptParam height) else .pass),
    resizeFmt format, some .nan⟩ with
  | error e =>
    simp only [resizeImage, h1, hq', h2, h3, hfind, ht, hsrc, hext, hcd, hcp, hmiss, hrun,
      Option.isSome_none, Bool.false_eq_true, if_false, if_true]
    refine ⟨fun m hm => ?_, by simp⟩
    simp at hm
  | ok b =>
    simp only [resizeImage, h1, hq', h2, h3, hfind, ht, hsrc, hext, hcd, hcp, hmiss, hrun,
      Option.isSome_none, Bool.false_eq_true, if_false, if_true,
      sendFileR, FS.read_write_self]
    refine ⟨fun m hm => ?_, by simp⟩
    simp at hm


/-- C9 helper: a convert request (non-gif target) with a non-numeric quality
string passes validation and reaches the engine carrying `NaN`. -/
theorem nanq_convert
    (db : List FileRec) (uid fid : Nat) (f qs : String) (st : FS) (file : FileRec)
    (src : Img) (cd cp : String)
    (hq : jsParseInt qs = .nan) (hf : f ≠ "")
    (hsupp : (["jpeg", "jpg", "png", "webp", "gif"].contains (toLowerS f)) = true)
    (hgif : toLowerS f ≠ "gif")
    (hfind : findById db fid uid = some file) (htype : file.file_type = "image")
    (hsrc : st.read file.path = some src)
    (hcd : pathJoin (dirnameOf file.path) "cache" = cd)
    (hcp : pathJoin cd (convertCacheName (stemOf file.filename) .nan f) = cp)
    (huncached : st.read cp = none) :
    (∀ m, (convertImage db uid fid (some f) (some qs) st).resp ≠ .json 400 m) ∧
    Ev.engine ⟨.pass, (convertFmt f).1, some .nan⟩ ∈
      (convertImage db uid fid (some f) (some qs) st).trace := by
  have hq' : parseWithDefault (some qs) 80 = .nan := hq
  have h3 : (jsLt JVal.nan 1 || jsGt JVal.nan 100) = false := rfl
  have h1 : truthyOpt (some f) = true := by simp [truthyOpt, hf]
  have hgetD : (some f).getD "" = f := rfl
  have hsuppB : (!(["jpeg", "jpg", "png", "webp", "gif"].contains (toLowerS f))) = false := by
    rw [hsupp]
    rfl
  have ht : (file.file_type != "image") = false := by simp [htype]
  have hmiss : (st.ensureDir cd).read cp = none := by
    rw [FS.read_ensureDir, huncached]
  have hfc : (convertFmt f).2 = true := by
    rw [convertFmt]
    split
    · rfl
    · rfl
    · exact absurd (by assumption) hgif
    · rfl
  have hqual : (if (convertFmt f).2 then some JVal.nan else none) = some JVal.nan := by
    rw [hfc, if_pos rfl]
  cases hrun : sharpRun src ⟨.pass, (convertFmt f).1, some .nan⟩ with
  | error e =>
    simp only [convertImage, h1, hgetD, hsuppB, hq', h3, hfind, ht, hsrc, hcd, hcp, hmiss,
      hfc, hqual, hrun, Option.isSome_none, Bool.false_eq_true, if_false, if_true]
    refine ⟨fun m hm => ?_, by simp⟩
    simp at hm
  | ok b =>
    simp only [convertImage, h1, hgetD, hsuppB, hq', h3, hfind, ht, hsrc, hcd, hcp, hmiss,
      hfc, hqual, hrun, Option.isSome_none, Bool.false_eq_true, if_false, if_true,
      sendFileR, FS.read_write_self]
    refine ⟨fun m hm => ?_, by simp⟩
    simp at hm


/-- C9 helper: a thumbnail request with non-numeric quality passes validation
and reaches the engine carrying `NaN` as the quality. -/
theorem nanq_thumbnail
    (db : List FileRec) (uid fid : Nat) (size : Option String) (qs : String) (st : FS)
    (file : FileRec) (src : Img) (s : JVal) (cd cp : String)
    (hq : jsParseInt qs = .nan)
    (hs : parseWithDefault size 300 = s)
    (h1 : (jsLt s 50 || jsGt s 1000) = false)
    (hby : defaultThumbHit st file s = false)
    (hfind : findById db fid uid = some file) (htype : file.file_type = "image")
    (hsrc : st.read file.path = some src)
    (hcd : pathJoin (dirnameOf file.path) "cache" = cd)
    (hcp : pathJoin cd (thumbCacheName (stemOf file.filename) s .nan) = cp)
    (huncached : st.read cp = none) :
    (∀ m, (generateThumbnail db uid fid size (some qs) st).resp ≠ .json 400 m) ∧
    Ev.engine ⟨.cover s, .jpeg, some .nan⟩ ∈
      (generateThumbnail db uid fid size (some qs) st).trace := by
  have hq' : parseWithDefault (some qs) 80 = .nan := hq
  have h3 : (jsLt JVal.nan 1 || jsGt JVal.nan 100) = false := rfl
  have ht : (file.file_type != "image") = false := by simp [htype]
  have hmiss : (st.ensureDir cd).read cp = none := by
    rw [FS.read_ensureDir, huncached]
  cases hrun : sharpRun src ⟨.cover s, .jpeg, some .nan⟩ with
  | error e =>
    simp only [generateThumbnail, hs, hq', h1, h3, hby, hfind, ht, hsrc, hcd, hcp, hmiss,
      hrun, Option.isSome_none, Bool.false_eq_true, if_false, if_true]
    refine ⟨fun m hm => ?_, by simp⟩
    simp at hm
  | ok b =>
    simp only [generateThumbnail, hs, hq', h1, h3, hby, hfind, ht, hsrc, hcd, hcp, hmiss,
      hrun, Option.isSome_none, Bool.false_eq_true, if_false, if_true,
      sendFileR, FS.read_write_self]
    refine ⟨fun m hm => ?_, by simp⟩
    simp at hm

/-- C9 helper: a thumbnail request with non-numeric size passes validation
(NaN < 50 and NaN > 1000 are both false), misses the `s === 300` shortcut, and
reaches the engine with `NaN` as the cover-resize size. -/
theorem nans_thumbnail
    (db : List FileRec) (uid fid : Nat) (ss : String) (quality : Option String) (st : FS)
    (file : FileRec) (src : Img) (q : JVal) (cd cp : String)
    (hsn : jsParseInt ss = .nan)
    (hq : parseWithDefault quality 80 = q)
    (h2 : (jsLt q 1 || jsGt q 100) = false)
    (hfind : findById db fid uid = some file) (htype : file.file_type = "image")
    (hsrc : st.read file.path = some src)
    (hcd : pathJoin (dirnameOf file.path) "cache" = cd)
    (hcp : pathJoin cd (thumbCacheName (stemOf file.filename) .nan q) = cp)
    (huncached : st.read cp = none) :
    (∀ m, (generateThumbnail db uid fid (some ss) quality st).resp ≠ .json 400 m) ∧
    Ev.engine ⟨.cover .nan, .jpeg, some q⟩ ∈
      (generateThumbnail db uid fid (some ss) quality st).trace := by
  have hs' : parseWithDefault (some ss) 300 = .nan := hsn
  have h1 : (jsLt JVal.nan 50 || jsGt JVal.nan 1000) = false := rfl
  have hby : defaultThumbHit st file .nan = false := by
    rw [defaultThumbHit]
    cases file.thumbnail_path with
    | none => rfl
    | some tp => simp
  have ht : (file.file_type != "image") = false := by simp [htype]
  have hmiss : (st.ensureDir cd).read cp = none := by
    rw [FS.read_ensureDir, huncached]
  cases hrun : sharpRun src ⟨.cover .nan, .jpeg, some q⟩ with
  | error e =>
    simp only [generateThumbnail, hs', hq, h1, h2, hby, hfind, ht, hsrc, hcd, hcp, hmiss,
      hrun, Option.isSome_none, Bool.false_eq_true, if_false, if_true]
    refine ⟨fun m hm => ?_, by simp⟩
    simp at hm
  | ok b =>
    simp only [generateThumbnail, hs', hq, h1, h2, hby, hfind, ht, hsrc, hcd, hcp, hmiss,
      hrun, Option.isSome_none, Bool.false_eq_true, if_false, if_true,
      sendFileR, FS.read_write_self]
    refine ⟨fun m hm => ?_, by simp⟩
    simp at hm

/-- C9 helper: a crop request with non-numeric quality passes validation and
reaches the engine carrying `NaN`. -/
theorem nanq_crop
    (db : List FileRec) (uid fid : Nat) (x y width height : Option String) (qs : String)
    (st : FS) (file : FileRec) (src : Img) (cd cp : String)
    (hq : jsParseInt qs = .nan)
    (h1 : (!truthyOpt x || !truthyOpt y || !truthyOpt width || !truthyOpt height) = false)
    (h2 : (jsLt (jsParseInt (x.getD "")) 0 || jsLt (jsParseInt (y.getD "")) 0 ||
      jsLt (jsParseInt (width.getD "")) 1 || jsLt (jsParseInt (height.getD "")) 1) = false)
    (hfind : findById db fid uid = some file) (htype : file.file_type = "image")
    (hsrc : st.read file.path = some src)
    (hcd : pathJoin (dirnameOf file.path) "cache" = cd)
    (hcp : pathJoin cd (cropCacheName (stemOf file.filename) (jsParseInt (x.getD ""))
      (jsParseInt (y.getD "")) (jsParseInt (width.getD ""))
      (jsParseInt (height.getD "")) .nan) = cp)
    (huncached : st.read cp = none) :
    (∀ m, (cropImage db uid fid x y width height (some qs) st).resp ≠ .json 400 m) ∧
    Ev.engine ⟨.cut (jsParseInt (x.getD "")) (jsParseInt (y.getD ""))
        (jsParseInt (width.getD "")) (jsParseInt (height.getD "")), .jpeg, some .nan⟩ ∈
      (cropImage db uid fid x y width height (some qs) st).trace := by
  have hq' : parseWithDefault (some qs) 80 = .nan := hq
  have h3 : (jsLt JVal.nan 1 || jsGt JVal.nan 100) = false := rfl
  have ht : (file.file_type != "image") = false := by simp [htype]
  have hmiss : (st.ensureDir cd).read cp = none := by
    rw [FS.read_ensureDir, huncached]
  cases hrun : sharpRun src ⟨.cut (jsParseInt (x.getD "")) (jsParseInt (y.getD ""))
      (jsParseInt (width.getD "")) (jsParseInt (height.getD "")), .jpeg, some .nan⟩ with
  | error e =>
    simp only [cropImage, h1, hq', h2, h3, hfind, ht, hsrc, hcd, hcp, hmiss, hrun,
      Option.isSome_none, Bool.false_eq_true, if_false, if_true]
    refine ⟨fun m hm => ?_, by simp⟩
    simp at hm
  | ok b =>
    simp only [cropImage, h1, hq', h2, h3, hfind, ht, hsrc, hcd, hcp, hmiss, hrun,
      Option.isSome_none, Bool.false_eq_true, if_false, if_true,
      sendFileR, FS.read_write_self]
    refine ⟨fun m hm => ?_, by simp⟩
    simp at hm


/-- C9 helper: a convert request with a gif target and a non-numeric quality
string passes validation and reaches the engine, but the `gif()` encoder takes
no quality option, so the engine call carries no quality at all (the `NaN` is
dropped, not passed). -/
theorem nanq_convert_gif
    (db : List FileRec) (uid fid : Nat) (f qs : String) (st : FS) (file : FileRec)
    (src : Img) (cd cp : String)
    (hq : jsParseInt qs = .nan) (hf : f ≠ "")
    (hgif : toLowerS f = "gif")
    (hfind : findById db fid uid = some file) (htype : file.file_type = "image")
    (hsrc : st.read file.path = some src)
    (hcd : pathJoin (dirnameOf file.path) "cache" = cd)
    (hcp : pathJoin cd (convertCacheName (stemOf file.filename) .nan f) = cp)
    (huncached : st.read cp = none) :
    (∀ m, (convertImage db uid fid (some f) (some qs) st).resp ≠ .json 400 m) ∧
    Ev.engine ⟨.pass, .gif, none⟩ ∈
      (convertImage db uid fid (some f) (some qs) st).trace := by
  have hq' : parseWithDefault (some qs) 80 = .nan := hq
  have h3 : (jsLt JVal.nan 1 || jsGt JVal.nan 100) = false := rfl
  have h1 : truthyOpt (some f) = true := by simp [truthyOpt, hf]
  have hgetD : (some f).getD "" = f := rfl
  have hsuppB : (!(["jpeg", "jpg", "png", "webp", "gif"].contains (toLowerS f))) = false := by
    rw [hgif]
    rfl
  have ht : (file.file_type != "image") = false := by simp [htype]
  have hmiss : (st.ensureDir cd).read cp = none := by
    rw [FS.read_ensureDir, huncached]
  have hfc : convertFmt f = (.gif, false) := by
    simp [convertFmt, hgif]
  cases hrun : sharpRun src ⟨.pass, .gif, none⟩ with
  | error e =>
    simp only [convertImage, h1, hgetD, hsuppB, hq', h3, hfind, ht, hsrc, hcd, hcp, hmiss,
      hfc, hrun, Option.isSome_none, Bool.false_eq_true, if_false, if_true]
    refine ⟨fun m hm => ?_, by simp⟩
    simp at hm
  | ok b =>
    simp only [convertImage, h1, hgetD, hsuppB, hq', h3, hfind, ht, hsrc, hcd, hcp, hmiss,
      hfc, hrun, Option.isSome_none, Bool.false_eq_true, if_false, if_true,
      sendFileR, FS.read_write_self]
    refine ⟨fun m hm => ?_, by simp⟩
    simp at hm

/-- C9 amended: non-numeric parameters escape validation.  `parseInt` on a
non-numeric string yields `NaN`, both range comparisons (below the lower
bound, above the upper bound) are false, and the request is not rejected as a
400 validation error but proceeds to the engine with the `NaN` value — stated
for the resize, convert (non-gif target), thumbnail (both non-numeric quality
and non-numeric size) and crop controllers — except that for convert with a
gif target the request still passes validation and reaches the engine, but
the `gif()` encoder takes no quality option, so the engine call carries no
quality (the `NaN` is dropped rather than passed; see the counterexample). -/
theorem nan_parameters_escape_validation :
    (∀ k : Int, jsLt JVal.nan k = false ∧ jsGt JVal.nan k = false) ∧
    (∀ db uid fid width height qs format st file src ext cd cp,
      jsParseInt qs = JVal.nan →
      (!truthyOpt width && !truthyOpt height) = false →
      ((jsTruthy (parseOptParam width) &&
          (jsLt (parseOptParam width) 1 || jsGt (parseOptParam width) 4096)) ||
        (jsTruthy (parseOptParam height) &&
          (jsLt (parseOptParam height) 1 || jsGt (parseOptParam height) 4096))) = false →
      findById db fid uid = some file → file.file_type = "image" →
      FS.read st file.path = some src →
      (if truthyOpt format then format.getD "" else "jpeg") = ext →
      pathJoin (dirnameOf file.path) "cache" = cd →
      pathJoin cd (resizeCacheName (stemOf file.filename) (parseOptParam width)
        (parseOptParam height) JVal.nan ext) = cp →
      FS.read st cp = none →
      (∀ m, (resizeImage db uid fid width height (some qs) format st).resp ≠ .json 400 m) ∧
      Ev.engine ⟨(if jsTruthy (parseOptParam width) || jsTruthy (parseOptParam height) then
          SharpOp.inside (parseOptParam width) (parseOptParam height) else .pass),
        resizeFmt format, some .nan⟩ ∈
        (resizeImage db uid fid width height (some qs) format st).trace) ∧
    (∀ db uid fid f qs st file src cd cp,
      jsParseInt qs = JVal.nan → f ≠ "" →
      (["jpeg", "jpg", "png", "webp", "gif"].contains (toLowerS f)) = true →
      toLowerS f ≠ "gif" →
      findById db fid uid = some file → file.file_type = "image" →
      FS.read st file.path = some src →
      pathJoin (dirnameOf file.path) "cache" = cd →
      pathJoin cd (convertCacheName (stemOf file.filename) JVal.nan f) = cp →
      FS.read st cp = none →
      (∀ m, (convertImage db uid fid (some f) (some qs) st).resp ≠ .json 400 m) ∧
      Ev.engine ⟨.pass, (convertFmt f).1, some .nan⟩ ∈
        (convertImage db uid fid (some f) (some qs) st).trace) ∧
    (∀ db uid fid size qs st file src s cd cp,
      jsParseInt qs = JVal.nan →
      parseWithDefault size 300 = s →
      (jsLt s 50 || jsGt s 1000) = false →
      defaultThumbHit st file s = false →
      findById db fid uid = some file → file.file_type = "image" →
      FS.read st file.path = some src →
      pathJoin (dirnameOf file.path) "cache" = cd →
      pathJoin cd (thumbCacheName (stemOf file.filename) s JVal.nan) = cp →
      FS.read st cp = none →
      (∀ m, (generateThumbnail db uid fid size (some qs) st).resp ≠ .json 400 m) ∧
      Ev.engine ⟨.cover s, .jpeg, some .nan⟩ ∈
        (generateThumbnail db uid fid size (some qs) st).trace) ∧
    (∀ db uid fid ss quality st file src q cd cp,
      jsParseInt ss = JVal.nan →
      parseWithDefault quality 80 = q →
      (jsLt q 1 || jsGt q 100) = false →
      findById db fid uid = some file → file.file_type = "image" →
      FS.read st file.path = some src →
      pathJoin (dirnameOf file.path) "cache" = cd →
      pathJoin cd (thumbCacheName (stemOf file.filename) JVal.nan q) = cp →
      FS.read st cp = none →
      (∀ m, (generateThumbnail db uid fid (some ss) quality st).resp ≠ .json 400 m) ∧
      Ev.engine ⟨.cover .nan, .jpeg, some q⟩ ∈
        (generateThumbnail db uid fid (some ss) quality st).trace) ∧
    (∀ db uid fid x y width height qs st file src cd cp,
      jsParseInt qs = JVal.nan →
      (!truthyOpt x || !truthyOpt y || !truthyOpt width || !truthyOpt height) = false →
      (jsLt (jsParseInt (x.getD "")) 0 || jsLt (jsParseInt (y.getD "")) 0 ||
        jsLt (jsParseInt (width.getD "")) 1 || jsLt (jsParseInt (height.getD "")) 1) = false →
      findById db fid uid = some file → file.file_type = "image" →
      FS.read st file.path = some src →
      pathJoin (dirnameOf file.path) "cache" = cd →
      pathJoin cd (cropCacheName (stemOf file.filename) (jsParseInt (x.getD ""))
        (jsParseInt (y.getD "")) (jsParseInt (width.getD ""))
        (jsParseInt (height.getD "")) JVal.nan) = cp →
      FS.read st cp = none →
      (∀ m, (cropImage db uid fid x y width height (some qs) st).resp ≠ .json 400 m) ∧
      Ev.engine ⟨.cut (jsParseInt (x.getD "")) (jsParseInt (y.getD ""))
          (jsParseInt (width.getD "")) (jsParseInt (height.getD "")), .jpeg, some .nan⟩ ∈
        (cropImage db uid fid x y width height (some qs) st).trace) ∧
    (∀ db uid fid f qs st file src cd cp,
      jsParseInt qs = JVal.nan → f ≠ "" → toLowerS f = "gif" →
      findById db fid uid = some file → file.file_type = "image" →
      FS.read st file.path = some src →
      pathJoin (dirnameOf file.path) "cache" = cd →
      pathJoin cd (convertCacheName (stemOf file.filename) JVal.nan f) = cp →
      FS.read st cp = none →
      (∀ m, (convertImage db uid fid (some f) (some qs) st).resp ≠ .json 400 m) ∧
      Ev.engine ⟨.pass, .gif, none⟩ ∈
        (convertImage db uid fid (some f) (some qs) st).trace) :=
  ⟨fun _ => ⟨rfl, rfl⟩,
    fun db uid fid width height qs format st file src ext cd cp hq h1 h2 hfind htype hsrc
        hext hcd hcp hu =>
      nanq_resize db uid fid width height qs format st file src ext cd cp hq h1 h2 hfind
        htype hsrc hext hcd hcp hu,
    fun db uid fid f qs st file src cd cp hq hf hsupp hgif hfind htype hsrc hcd hcp hu =>
      nanq_convert db uid fid f qs st file src cd cp hq hf hsupp hgif hfind htype hsrc
        hcd hcp hu,
    fun db uid fid size qs st file src s cd cp hq hs h1 hby hfind htype hsrc hcd hcp hu =>
      nanq_thumbnail db uid fid size qs st file src s cd cp hq hs h1 hby hfind htype hsrc
        hcd hcp hu,
    fun db uid fid ss quality st file src q cd cp hsn hq h2 hfind htype hsrc hcd hcp hu =>
      nans_thumbnail db uid fid ss quality st file src q cd cp hsn hq h2 hfind htype hsrc
        hcd hcp hu,
    fun db uid fid x y width height qs st file src cd cp hq h1 h2 hfind htype hsrc hcd
        hcp hu =>
      nanq_crop db uid fid x y width height qs st file src cd cp hq h1 h2 hfind htype
        hsrc hcd hcp hu,
    fun db uid fid f qs st file src cd cp hq hf hgif hfind htype hsrc hcd hcp hu =>
      nanq_convert_gif db uid fid f qs st file src cd cp hq hf hgif hfind htype hsrc
        hcd hcp hu⟩


/-- Witness for C9: concrete requests with `quality=abc` (and `size=big`)
reaching the engine with `NaN` on all five clauses. -/
theorem nan_parameters_escape_validation_witness :
    (Ev.engine ⟨.inside (.num 800) .null, .jpeg, some .nan⟩ ∈
      (resizeImage dbW 7 1 (some "800") none (some "abc") none stW).trace) ∧
    (Ev.engine ⟨.pass, .png, some .nan⟩ ∈
      (convertImage dbW 7 1 (some "png") (some "abc") stW).trace) ∧
    (Ev.engine ⟨.cover (.num 400), .jpeg, some .nan⟩ ∈
      (generateThumbnail dbW 7 1 (some "400") (some "abc") stW).trace) ∧
    (Ev.engine ⟨.cover .nan, .jpeg, some (.num 80)⟩ ∈
      (generateThumbnail dbW 7 1 (some "big") none stW).trace) ∧
    (Ev.engine ⟨.cut (.num 0) (.num 0) (.num 100) (.num 100), .jpeg, some .nan⟩ ∈
      (cropImage dbW 7 1 (some "0") (some "0") (some "100") (some "100")
        (some "abc") stW).trace) ∧
    (Ev.engine ⟨.pass, .gif, none⟩ ∈
      (convertImage dbW 7 1 (some "gif") (some "abc") stW).trace) :=
  ⟨(nan_parameters_escape_validation.2.1 dbW 7 1 (some "800") none "abc" none stW fileW
      imgW "jpeg" "/up/7/cache" "/up/7/cache/photo_800xauto_qNaN.jpeg"
      (by decide) (by decide) (by decide) (by decide) (by decide) (by decide) (by decide)
      (by decide) (by decide) (by decide)).2,
    (nan_parameters_escape_validation.2.2.1 dbW 7 1 "png" "abc" stW fileW imgW
      "/up/7/cache" "/up/7/cache/photo_converted_qNaN.png"
      (by decide) (by decide) (by decide) (by decide) (by decide) (by decide) (by decide)
      (by decide) (by decide) (by decide)).2,
    (nan_parameters_escape_validation.2.2.2.1 dbW 7 1 (some "400") "abc" stW fileW imgW
      (.num 400) "/up/7/cache" "/up/7/cache/photo_thumb_400x400_qNaN.jpg"
      (by decide) (by decide) (by decide) (by decide) (by decide) (by decide) (by decide)
      (by decide) (by decide) (by decide)).2,
    (nan_parameters_escape_validation.2.2.2.2.1 dbW 7 1 "big" none stW fileW imgW
      (.num 80) "/up/7/cache" "/up/7/cache/photo_thumb_NaNxNaN_q80.jpg"
      (by decide) (by decide) (by decide) (by decide) (by decide) (by decide) (by decide)
      (by decide) (by decide)).2,
    (nan_parameters_escape_validation.2.2.2.2.2.1 dbW 7 1 (some "0") (some "0")
      (some "100") (some "100") "abc" stW fileW imgW "/up/7/cache"
      "/up/7/cache/photo_crop_0_0_100_100_qNaN.jpg"
      (by decide) (by decide) (by decide) (by decide) (by decide) (by decide) (by decide)
      (by decide) (by decide)).2,
    (nan_parameters_escape_validation.2.2.2.2.2.2 dbW 7 1 "gif" "abc" stW fileW imgW
      "/up/7/cache" "/up/7/cache/photo_converted_qNaN.gif"
      (by decide) (by decide) (by decide) (by decide) (by decide) (by decide) (by decide)
      (by decide) (by decide)).2⟩

/-- C9 counterexample: a gif-target convert request with `quality=abc` passes
validation and reaches the engine, but the engine invocation carries no
quality option — the claim's "proceeds to the engine with the NaN value" fails
for gif targets. -/
theorem nan_gif_convert_counterexample :
    (convertImage dbW 7 1 (some "gif") (some "abc") stW).trace =
      [.dbLookup, .fsCheck "/up/7/photo.jpg", .mkdir "/up/7/cache",
        .cacheCheck "/up/7/cache/photo_converted_qNaN.gif",
        .engine ⟨.pass, .gif, none⟩] ∧
    Ev.engine ⟨.pass, .gif, some .nan⟩ ∉
      (convertImage dbW 7 1 (some "gif") (some "abc") stW).trace ∧
    (convertImage dbW 7 1 (some "gif") (some "abc") stW).resp =
      .file "/up/7/cache/photo_converted_qNaN.gif"
        ⟨600, 300, Nat.pair 5 (specCode ⟨.pass, .gif, none⟩)⟩ :=
  ⟨by decide, by decide, by decide⟩


/-! ### Symbolic cache-miss and cache-hit runs; claims C1 and C3 -/

/-- Symbolic run of `resizeImage` on a cache miss: with validation passed,
the record found, the source readable and the cache key absent, the call
ensures the cache directory, invokes the engine once and (on success) writes
the derivative under the key. -/
theorem resizeImage_miss
    (db : List FileRec) (uid fid : Nat) (width height quality format : Option String)
    (st : FS) (file : FileRec) (src : Img) (w h q : JVal) (ext cd cp : String)
    (sp : EncodeSpec)
    (h1 : (!truthyOpt width && !truthyOpt height) = false)
    (hpw : parseOptParam width = w) (hph : parseOptParam height = h)
    (hpq : parseWithDefault quality 80 = q)
    (h2 : ((jsTruthy w && (jsLt w 1 || jsGt w 4096)) ||
      (jsTruthy h && (jsLt h 1 || jsGt h 4096))) = false)
    (h3 : (jsLt q 1 || jsGt q 100) = false)
    (hfind : findById db fid uid = some file) (htype : file.file_type = "image")
    (hsrc : st.read file.path = some src)
    (hext : (if truthyOpt format then format.getD "" else "jpeg") = ext)
    (hcd : pathJoin (dirnameOf file.path) "cache" = cd)
    (hcp : pathJoin cd (resizeCacheName (stemOf file.filename) w h q ext) = cp)
    (hsp : EncodeSpec.mk (if jsTruthy w || jsTruthy h then .inside w h else .pass)
      (resizeFmt format) (some q) = sp)
    (huncached : st.read cp = none) :
    resizeImage db uid fid width height quality format st =
      (match sharpRun src sp with
        | .ok b => ⟨[.dbLookup, .fsCheck file.path, .mkdir cd, .cacheCheck cp,
            .engine sp], .file cp b, (st.ensureDir cd).write cp b⟩
        | .error _ => ⟨[.dbLookup, .fsCheck file.path, .mkdir cd, .cacheCheck cp,
            .engine sp], .json 500 "Image processing failed", st.ensureDir cd⟩) := by
  have ht : (file.file_type != "image") = false := by simp [htype]
  have hmiss : (st.ensureDir cd).read cp = none := by
    rw [FS.read_ensureDir, huncached]
  cases hrun : sharpRun src sp with
  | error e =>
    simp only [resizeImage, h1, hpw, hph, hpq, h2, h3, hfind, ht, hsrc, hext, hcd, hcp,
      hsp, hmiss, hrun, Option.isSome_none, Bool.false_eq_true, if_false, if_true]
    simp
  | ok b =>
    simp only [resizeImage, h1, hpw, hph, hpq, h2, h3, hfind, ht, hsrc, hext, hcd, hcp,
      hsp, hmiss, hrun, Option.isSome_none, Bool.false_eq_true, if_false, if_true,
      sendFileR, FS.read_write_self]
    simp

/-- Symbolic run of `resizeImage` on a cache hit: the cached bytes are
served with no engine invocation and no write. -/
theorem resizeImage_hit
    (db : List FileRec) (uid fid : Nat) (width height quality format : Option String)
    (st : FS) (file : FileRec) (src b : Img) (w h q : JVal) (ext cd cp : String)
    (h1 : (!truthyOpt width && !truthyOpt height) = false)
    (hpw : parseOptParam width = w) (hph : parseOptParam height = h)
    (hpq : parseWithDefault quality 80 = q)
    (h2 : ((jsTruthy w && (jsLt w 1 || jsGt w 4096)) ||
      (jsTruthy h && (jsLt h 1 || jsGt h 4096))) = false)
    (h3 : (jsLt q 1 || jsGt q 100) = false)
    (hfind : findById db fid uid = some file) (htype : file.file_type = "image")
    (hsrc : st.read file.path = some src)
    (hext : (if truthyOpt format then format.getD "" else "jpeg") = ext)
    (hcd : pathJoin (dirnameOf file.path) "cache" = cd)
    (hcp : pathJoin cd (resizeCacheName (stemOf file.filename) w h q ext) = cp)
    (hcached : st.read cp = some b) :
    resizeImage db uid fid width height quality format st =
      ⟨[.dbLookup, .fsCheck file.path, .mkdir cd, .cacheCheck cp],
        .file cp b, st.ensureDir cd⟩ := by
  have ht : (file.file_type != "image") = false := by simp [htype]
  have hcache2 : (st.ensureDir cd).read cp = some b := by
    rw [FS.read_ensureDir, hcached]
  simp only [resizeImage, h1, hpw, hph, hpq, h2, h3, hfind, ht, hsrc, hext, hcd, hcp,
    hcache2, Option.isSome_some, Bool.false_eq_true, if_false, if_true, sendFileR]


/-- Symbolic run of `convertImage` on a cache miss. -/
theorem convertImage_miss
    (db : List FileRec) (uid fid : Nat) (f : String) (quality : Option String)
    (st : FS) (file : FileRec) (src : Img) (q : JVal) (cd cp : String) (sp : EncodeSpec)
    (hf : f ≠ "")
    (hsupp : (!(["jpeg", "jpg", "png", "webp", "gif"].contains (toLowerS f))) = false)
    (hpq : parseWithDefault quality 80 = q)
    (h3 : (jsLt q 1 || jsGt q 100) = false)
    (hfind : findById db fid uid = some file) (htype : file.file_type = "image")
    (hsrc : st.read file.path = some src)
    (hcd : pathJoin (dirnameOf file.path) "cache" = cd)
    (hcp : pathJoin cd (convertCacheName (stemOf file.filename) q f) = cp)
    (hsp : EncodeSpec.mk .pass (convertFmt f).1
      (if (convertFmt f).2 then some q else none) = sp)
    (huncached : st.read cp = none) :
    convertImage db uid fid (some f) quality st =
      (match sharpRun src sp with
        | .ok b => ⟨[.dbLookup, .fsCheck file.path, .mkdir cd, .cacheCheck cp,
            .engine sp], .file cp b, (st.ensureDir cd).write cp b⟩
        | .error _ => ⟨[.dbLookup, .fsCheck file.path, .mkdir cd, .cacheCheck cp,
            .engine sp], .json 500 "Image conversion failed", st.ensureDir cd⟩) := by
  have h1 : truthyOpt (some f) = true := by simp [truthyOpt, hf]
  have hgetD : (some f).getD "" = f := rfl
  have ht : (file.file_type != "image") = false := by simp [htype]
  have hmiss : (st.ensureDir cd).read cp = none := by
    rw [FS.read_ensureDir, huncached]
  cases hrun : sharpRun src sp with
  | error e =>
    simp only [convertImage, h1, hgetD, hsupp, hpq, h3, hfind, ht, hsrc, hcd, hcp, hsp,
      hmiss, hrun, Option.isSome_none, Bool.false_eq_true, if_false, if_true]
    simp
  | ok b =>
    simp only [convertImage, h1, hgetD, hsupp, hpq, h3, hfind, ht, hsrc, hcd, hcp, hsp,
      hmiss, hrun, Option.isSome_none, Bool.false_eq_true, if_false, if_true,
      sendFileR, FS.read_write_self]
    simp

/-- Symbolic run of `convertImage` on a cache hit: no engine invocation. -/
theorem convertImage_hit
    (db : List FileRec) (uid fid : Nat) (f : String) (quality : Option String)
    (st : FS) (file : FileRec) (src b : Img) (q : JVal) (cd cp : String)
    (hf : f ≠ "")
    (hsupp : (!(["jpeg", "jpg", "png", "webp", "gif"].contains (toLowerS f))) = false)
    (hpq : parseWithDefault quality 80 = q)
    (h3 : (jsLt q 1 || jsGt q 100) = false)
    (hfind : findById db fid uid = some file) (htype : file.file_type = "image")
    (hsrc : st.read file.path = some src)
    (hcd : pathJoin (dirnameOf file.path) "cache" = cd)
    (hcp : pathJoin cd (convertCacheName (stemOf file.filename) q f) = cp)
    (hcached : st.read cp = some b) :
    convertImage db uid fid (some f) quality st =
      ⟨[.dbLookup, .fsCheck file.path, .mkdir cd, .cacheCheck cp],
        .file cp b, st.ensureDir cd⟩ := by
  have h1 : truthyOpt (some f) = true := by simp [truthyOpt, hf]
  have hgetD : (some f).getD "" = f := rfl
  have ht : (file.file_type != "image") = false := by simp [htype]
  have hcache2 : (st.ensureDir cd).read cp = some b := by
    rw [FS.read_ensureDir, hcached]
  simp only [convertImage, h1, hgetD, hsupp, hpq, h3, hfind, ht, hsrc, hcd, hcp,
    hcache2, Option.isSome_some, Bool.false_eq_true, if_false, if_true, sendFileR]
  simp

/-- Symbolic run of `cropImage` on a cache miss. -/
theorem cropImage_miss
    (db : List FileRec) (uid fid : Nat) (x y width height quality : Option String)
    (st : FS) (file : FileRec) (src : Img) (q : JVal) (cd cp : String) (sp : EncodeSpec)
    (h1 : (!truthyOpt x || !truthyOpt y || !truthyOpt width || !truthyOpt height) = false)
    (h2 : (jsLt (jsParseInt (x.getD "")) 0 || jsLt (jsParseInt (y.getD "")) 0 ||
      jsLt (jsParseInt (width.getD "")) 1 || jsLt (jsParseInt (height.getD "")) 1) = false)
    (hpq : parseWithDefault quality 80 = q)
    (h3 : (jsLt q 1 || jsGt q 100) = false)
    (hfind : findById db fid uid = some file) (htype : file.file_type = "image")
    (hsrc : st.read file.path = some src)
    (hcd : pathJoin (dirnameOf file.path) "cache" = cd)
    (hcp : pathJoin cd (cropCacheName (stemOf file.filename) (jsParseInt (x.getD ""))
      (jsParseInt (y.getD "")) (jsParseInt (width.getD ""))
      (jsParseInt (height.getD "")) q) = cp)
    (hsp : EncodeSpec.mk (.cut (jsParseInt (x.getD "")) (jsParseInt (y.getD ""))
      (jsParseInt (width.getD "")) (jsParseInt (height.getD ""))) .jpeg (some q) = sp)
    (huncached : st.read cp = none) :
    cropImage db uid fid x y width height quality st =
      (match sharpRun src sp with
        | .ok b => ⟨[.dbLookup, .fsCheck file.path, .mkdir cd, .cacheCheck cp,
            .engine sp], .file cp b, (st.ensureDir cd).write cp b⟩
        | .error _ => ⟨[.dbLookup, .fsCheck file.path, .mkdir cd, .cacheCheck cp,
            .engine sp], .json 500 "Image cropping failed", st.ensureDir cd⟩) := by
  have ht : (file.file_type != "image") = false := by simp [htype]
  have hmiss : (st.ensureDir cd).read cp = none := by
    rw [FS.read_ensureDir, huncached]
  cases hrun : sharpRun src sp with
  | error e =>
    simp only [cropImage, h1, h2, hpq, h3, hfind, ht, hsrc, hcd, hcp, hsp, hmiss, hrun,
      Option.isSome_none, Bool.false_eq_true, if_false, if_true]
    simp
  | ok b =>
    simp only [cropImage, h1, h2, hpq, h3, hfind, ht, hsrc, hcd, hcp, hsp, hmiss, hrun,
      Option.isSome_none, Bool.false_eq_true, if_false, if_true,
      sendFileR, FS.read_write_self]
    simp

/-- Symbolic run of `cropImage` on a cache hit: no engine invocation. -/
theorem cropImage_hit
    (db : List FileRec) (uid fid : Nat) (x y width height quality : Option String)
    (st : FS) (file : FileRec) (src b : Img) (q : JVal) (cd cp : String)
    (h1 : (!truthyOpt x || !truthyOpt y || !truthyOpt width || !truthyOpt height) = false)
    (h2 : (jsLt (jsParseInt (x.getD "")) 0 || jsLt (jsParseInt (y.getD "")) 0 ||
      jsLt (jsParseInt (width.getD "")) 1 || jsLt (jsParseInt (height.getD "")) 1) = false)
    (hpq : parseWithDefault quality 80 = q)
    (h3 : (jsLt q 1 || jsGt q 100) = false)
    (hfind : findById db fid uid = some file) (htype : file.file_type = "image")
    (hsrc : st.read file.path = some src)
    (hcd : pathJoin (dirnameOf file.path) "cache" = cd)
    (hcp : pathJoin cd (cropCacheName (stemOf file.filename) (jsParseInt (x.getD ""))
      (jsParseInt (y.getD "")) (jsParseInt (width.getD ""))
      (jsParseInt (height.getD "")) q) = cp)
    (hcached : st.read cp = some b) :
    cropImage db uid fid x y width height quality st =
      ⟨[.dbLookup, .fsCheck file.path, .mkdir cd, .cacheCheck cp],
        .file cp b, st.ensureDir cd⟩ := by
  have ht : (file.file_type != "image") = false := by simp [htype]
  have hcache2 : (st.ensureDir cd).read cp = some b := by
    rw [FS.read_ensureDir, hcached]
  simp only [cropImage, h1, h2, hpq, h3, hfind, ht, hsrc, hcd, hcp, hcache2,
    Option.isSome_some, Bool.false_eq_true, if_false, if_true, sendFileR]


/-- Symbolic run of `generateThumbnail` on a cache miss, when the size-300
default-thumbnail shortcut does not fire. -/
theorem generateThumbnail_miss
    (db : List FileRec) (uid fid : Nat) (size quality : Option String)
    (st : FS) (file : FileRec) (src : Img) (s q : JVal) (cd cp : String)
    (hs : parseWithDefault size 300 = s) (hq : parseWithDefault quality 80 = q)
    (h1 : (jsLt s 50 || jsGt s 1000) = false)
    (h2 : (jsLt q 1 || jsGt q 100) = false)
    (hfind : findById db fid uid = some file) (htype : file.file_type = "image")
    (hsrc : st.read file.path = some src)
    (hby : defaultThumbHit st file s = false)
    (hcd : pathJoin (dirnameOf file.path) "cache" = cd)
    (hcp : pathJoin cd (thumbCacheName (stemOf file.filename) s q) = cp)
    (huncached : st.read cp = none) :
    generateThumbnail db uid fid size quality st =
      (match sharpRun src ⟨.cover s, .jpeg, some q⟩ with
        | .ok b =>
          ⟨([.dbLookup, .fsCheck file.path] ++
              (if (match file.thumbnail_path with
                | some tp => tp != ""
                | none => false) then [Ev.fsCheck (file.thumbnail_path.getD "")] else []) ++
              [.mkdir cd, .cacheCheck cp]) ++ [.engine ⟨.cover s, .jpeg, some q⟩],
            .file cp b, (st.ensureDir cd).write cp b⟩
        | .error _ =>
          ⟨([.dbLookup, .fsCheck file.path] ++
              (if (match file.thumbnail_path with
                | some tp => tp != ""
                | none => false) then [Ev.fsCheck (file.thumbnail_path.getD "")] else []) ++
              [.mkdir cd, .cacheCheck cp]) ++ [.engine ⟨.cover s, .jpeg, some q⟩],
            .json 500 "Thumbnail generation failed", st.ensureDir cd⟩) := by
  have ht : (file.file_type != "image") = false := by simp [htype]
  have hmiss : (st.ensureDir cd).read cp = none := by
    rw [FS.read_ensureDir, huncached]
  cases hrun : sharpRun src ⟨.cover s, .jpeg, some q⟩ with
  | error e =>
    simp only [generateThumbnail, hs, hq, h1, h2, hfind, ht, hsrc, hby, hcd, hcp, hmiss,
      hrun, Option.isSome_none, Bool.false_eq_true, if_false, if_true]
  | ok b =>
    simp only [generateThumbnail, hs, hq, h1, h2, hfind, ht, hsrc, hby, hcd, hcp, hmiss,
      hrun, Option.isSome_none, Bool.false_eq_true, if_false, if_true,
      sendFileR, FS.read_write_self]

/-- Symbolic run of `generateThumbnail` on a cache hit (shortcut off): no
engine invocation. -/
theorem generateThumbnail_hit
    (db : List FileRec) (uid fid : Nat) (size quality : Option String)
    (st : FS) (file : FileRec) (src b : Img) (s q : JVal) (cd cp : String)
    (hs : parseWithDefault size 300 = s) (hq : parseWithDefault quality 80 = q)
    (h1 : (jsLt s 50 || jsGt s 1000) = false)
    (h2 : (jsLt q 1 || jsGt q 100) = false)
    (hfind : findById db fid uid = some file) (htype : file.file_type = "image")
    (hsrc : st.read file.path = some src)
    (hby : defaultThumbHit st file s = false)
    (hcd : pathJoin (dirnameOf file.path) "cache" = cd)
    (hcp : pathJoin cd (thumbCacheName (stemOf file.filename) s q) = cp)
    (hcached : st.read cp = some b) :
    generateThumbnail db uid fid size quality st =
      ⟨[.dbLookup, .fsCheck file.path] ++
          (if (match file.thumbnail_path with
            | some tp => tp != ""
            | none => false) then [Ev.fsCheck (file.thumbnail_path.getD "")] else []) ++
          [.mkdir cd, .cacheCheck cp],
        .file cp b, st.ensureDir cd⟩ := by
  have ht : (file.file_type != "image") = false := by simp [htype]
  have hcache2 : (st.ensureDir cd).read cp = some b := by
    rw [FS.read_ensureDir, hcached]
  simp only [generateThumbnail, hs, hq, h1, h2, hfind, ht, hsrc, hby, hcd, hcp, hcache2,
    Option.isSome_some, Bool.false_eq_true, if_false, if_true, sendFileR]


/-- Two identical `convertImage` calls on an initially uncached asset: the
first call invokes the engine exactly once and writes the derivative, the
second is a pure cache hit returning the same bytes. -/
theorem convert_cache_idempotent
    (db : List FileRec) (uid fid : Nat) (f : String) (quality : Option String)
    (st : FS) (file : FileRec) (src b : Img) (q : JVal) (cd cp : String) (sp : EncodeSpec)
    (hf : f ≠ "")
    (hsupp : (!(["jpeg", "jpg", "png", "webp", "gif"].contains (toLowerS f))) = false)
    (hpq : parseWithDefault quality 80 = q)
    (h3 : (jsLt q 1 || jsGt q 100) = false)
    (hfind : findById db fid uid = some file) (htype : file.file_type = "image")
    (hsrc : st.read file.path = some src)
    (hcd : pathJoin (dirnameOf file.path) "cache" = cd)
    (hcp : pathJoin cd (convertCacheName (stemOf file.filename) q f) = cp)
    (hsp : EncodeSpec.mk .pass (convertFmt f).1
      (if (convertFmt f).2 then some q else none) = sp)
    (huncached : st.read cp = none)
    (hrun : sharpRun src sp = .ok b) :
    convertImage db uid fid (some f) quality st =
      ⟨[.dbLookup, .fsCheck file.path, .mkdir cd, .cacheCheck cp, .engine sp],
        .file cp b, (st.ensureDir cd).write cp b⟩ ∧
    convertImage db uid fid (some f) quality ((st.ensureDir cd).write cp b) =
      ⟨[.dbLookup, .fsCheck file.path, .mkdir cd, .cacheCheck cp],
        .file cp b, (st.ensureDir cd).write cp b⟩ ∧
    countEngine [Ev.dbLookup, .fsCheck file.path, .mkdir cd, .cacheCheck cp,
      .engine sp] = 1 ∧
    countEngine [Ev.dbLookup, .fsCheck file.path, .mkdir cd, .cacheCheck cp] = 0 := by
  have hne : file.path ≠ cp := by
    intro he
    rw [he, huncached] at hsrc
    exact Option.noConfusion hsrc
  have hfst : convertImage db uid fid (some f) quality st =
      ⟨[.dbLookup, .fsCheck file.path, .mkdir cd, .cacheCheck cp, .engine sp],
        .file cp b, (st.ensureDir cd).write cp b⟩ := by
    rw [convertImage_miss db uid fid f quality st file src q cd cp sp hf hsupp hpq h3
      hfind htype hsrc hcd hcp hsp huncached, hrun]
  have hsrc2 : ((st.ensureDir cd).write cp b).read file.path = some src := by
    rw [FS.read_write_ne _ _ hne, FS.read_ensureDir, hsrc]
  have hcached2 : ((st.ensureDir cd).write cp b).read cp = some b :=
    FS.read_write_self _ _ _
  have hdirs : (((st.ensureDir cd).write cp b).dirs.contains cd) = true := by
    rw [FS.dirs_write]
    exact FS.ensureDir_contains st cd
  have hsnd := convertImage_hit db uid fid f quality ((st.ensureDir cd).write cp b) file
    src b q cd cp hf hsupp hpq h3 hfind htype hsrc2 hcd hcp hcached2
  rw [FS.ensureDir_of_contains hdirs] at hsnd
  exact ⟨hfst, hsnd, by simp [countEngine], by simp [countEngine]⟩

/-- Two identical `cropImage` calls on an initially uncached asset: one
engine invocation, then a pure cache hit with the same bytes. -/
theorem crop_cache_idempotent
    (db : List FileRec) (uid fid : Nat) (x y width height quality : Option String)
    (st : FS) (file : FileRec) (src b : Img) (q : JVal) (cd cp : String) (sp : EncodeSpec)
    (h1 : (!truthyOpt x || !truthyOpt y || !truthyOpt width || !truthyOpt height) = false)
    (h2 : (jsLt (jsParseInt (x.getD "")) 0 || jsLt (jsParseInt (y.getD "")) 0 ||
      jsLt (jsParseInt (width.getD "")) 1 || jsLt (jsParseInt (height.getD "")) 1) = false)
    (hpq : parseWithDefault quality 80 = q)
    (h3 : (jsLt q 1 || jsGt q 100) = false)
    (hfind : findById db fid uid = some file) (htype : file.file_type = "image")
    (hsrc : st.read file.path = some src)
    (hcd : pathJoin (dirnameOf file.path) "cache" = cd)
    (hcp : pathJoin cd (cropCacheName (stemOf file.filename) (jsParseInt (x.getD ""))
      (jsParseInt (y.getD "")) (jsParseInt (width.getD ""))
      (jsParseInt (height.getD "")) q) = cp)
    (hsp : EncodeSpec.mk (.cut (jsParseInt (x.getD "")) (jsParseInt (y.getD ""))
      (jsParseInt (width.getD "")) (jsParseInt (height.getD ""))) .jpeg (some q) = sp)
    (huncached : st.read cp = none)
    (hrun : sharpRun src sp = .ok b) :
    cropImage db uid fid x y width height quality st =
      ⟨[.dbLookup, .fsCheck file.path, .mkdir cd, .cacheCheck cp, .engine sp],
        .file cp b, (st.ensureDir cd).write cp b⟩ ∧
    cropImage db uid fid x y width height quality ((st.ensureDir cd).write cp b) =
      ⟨[.dbLookup, .fsCheck file.path, .mkdir cd, .cacheCheck cp],
        .file cp b, (st.ensureDir cd).write cp b⟩ ∧
    countEngine [Ev.dbLookup, .fsCheck file.path, .mkdir cd, .cacheCheck cp,
      .engine sp] = 1 ∧
    countEngine [Ev.dbLookup, .fsCheck file.path, .mkdir cd, .cacheCheck cp] = 0 := by
  have hne : file.path ≠ cp := by
    intro he
    rw [he, huncached] at hsrc
    exact Option.noConfusion hsrc
  have hfst : cropImage db uid fid x y width height quality st =
      ⟨[.dbLookup, .fsCheck file.path, .mkdir cd, .cacheCheck cp, .engine sp],
        .file cp b, (st.ensureDir cd).write cp b⟩ := by
    rw [cropImage_miss db uid fid x y width height quality st file src q cd cp sp h1 h2
      hpq h3 hfind htype hsrc hcd hcp hsp huncached, hrun]
  have hsrc2 : ((st.ensureDir cd).write cp b).read file.path = some src := by
    rw [FS.read_write_ne _ _ hne, FS.read_ensureDir, hsrc]
  have hcached2 : ((st.ensureDir cd).write cp b).read cp = some b :=
    FS.read_write_self _ _ _
  have hdirs : (((st.ensureDir cd).write cp b).dirs.contains cd) = true := by
    rw [FS.dirs_write]
    exact FS.ensureDir_contains st cd
  have hsnd := cropImage_hit db uid fid x y width height quality
    ((st.ensureDir cd).write cp b) file src b q cd cp h1 h2 hpq h3 hfind htype hsrc2
    hcd hcp hcached2
  rw [FS.ensureDir_of_contains hdirs] at hsnd
  exact ⟨hfst, hsnd, by simp [countEngine], by simp [countEngine]⟩


/-- Two identical `generateThumbnail` calls on an initially uncached asset
when the size-300 default-thumbnail shortcut fires in neither call: one
engine invocation, then a pure cache hit with the same bytes. -/
theorem thumbnail_cache_idempotent
    (db : List FileRec) (uid fid : Nat) (size quality : Option String)
    (st : FS) (file : FileRec) (src b : Img) (s q : JVal) (cd cp : String)
    (hs : parseWithDefault size 300 = s) (hq : parseWithDefault quality 80 = q)
    (h1 : (jsLt s 50 || jsGt s 1000) = false)
    (h2 : (jsLt q 1 || jsGt q 100) = false)
    (hfind : findById db fid uid = some file) (htype : file.file_type = "image")
    (hsrc : st.read file.path = some src)
    (hby : defaultThumbHit st file s = false)
    (hby2 : defaultThumbHit ((st.ensureDir cd).write cp b) file s = false)
    (hcd : pathJoin (dirnameOf file.path) "cache" = cd)
    (hcp : pathJoin cd (thumbCacheName (stemOf file.filename) s q) = cp)
    (huncached : st.read cp = none)
    (hrun : sharpRun src ⟨.cover s, .jpeg, some q⟩ = .ok b) :
    generateThumbnail db uid fid size quality st =
      ⟨([.dbLookup, .fsCheck file.path] ++
          (if (match file.thumbnail_path with
            | some tp => tp != ""
            | none => false) then [Ev.fsCheck (file.thumbnail_path.getD "")] else []) ++
          [.mkdir cd, .cacheCheck cp]) ++ [.engine ⟨.cover s, .jpeg, some q⟩],
        .file cp b, (st.ensureDir cd).write cp b⟩ ∧
    generateThumbnail db uid fid size quality ((st.ensureDir cd).write cp b) =
      ⟨[.dbLookup, .fsCheck file.path] ++
          (if (match file.thumbnail_path with
            | some tp => tp != ""
            | none => false) then [Ev.fsCheck (file.thumbnail_path.getD "")] else []) ++
          [.mkdir cd, .cacheCheck cp],
        .file cp b, (st.ensureDir cd).write cp b⟩ ∧
    countEngine (([.dbLookup, .fsCheck file.path] ++
      (if (match file.thumbnail_path with
        | some tp => tp != ""
        | none => false) then [Ev.fsCheck (file.thumbnail_path.getD "")] else []) ++
      [.mkdir cd, .cacheCheck cp]) ++ [.engine ⟨.cover s, .jpeg, some q⟩]) = 1 ∧
    countEngine ([Ev.dbLookup, .fsCheck file.path] ++
      (if (match file.thumbnail_path with
        | some tp => tp != ""
        | none => false) then [Ev.fsCheck (file.thumbnail_path.getD "")] else []) ++
      [.mkdir cd, .cacheCheck cp]) = 0 := by
  have hne : file.path ≠ cp := by
    intro he
    rw [he, huncached] at hsrc
    exact Option.noConfusion hsrc
  have hfst : generateThumbnail db uid fid size quality st =
      ⟨([.dbLookup, .fsCheck file.path] ++
          (if (match file.thumbnail_path with
            | some tp => tp != ""
            | none => false) then [Ev.fsCheck (file.thumbnail_path.getD "")] else []) ++
          [.mkdir cd, .cacheCheck cp]) ++ [.engine ⟨.cover s, .jpeg, some q⟩],
        .file cp b, (st.ensureDir cd).write cp b⟩ := by
    rw [generateThumbnail_miss db uid fid size quality st file src s q cd cp hs hq h1 h2
      hfind htype hsrc hby hcd hcp huncached, hrun]
  have hsrc2 : ((st.ensureDir cd).write cp b).read file.path = some src := by
    rw [FS.read_write_ne _ _ hne, FS.read_ensureDir, hsrc]
  have hcached2 : ((st.ensureDir cd).write cp b).read cp = some b :=
    FS.read_write_self _ _ _
  have hdirs : (((st.ensureDir cd).write cp b).dirs.contains cd) = true := by
    rw [FS.dirs_write]
    exact FS.ensureDir_contains st cd
  have hsnd := generateThumbnail_hit db uid fid size quality ((st.ensureDir cd).write cp b)
    file src b s q cd cp hs hq h1 h2 hfind htype hsrc2 hby2 hcd hcp hcached2
  rw [FS.ensureDir_of_contains hdirs] at hsnd
  refine ⟨hfst, hsnd, ?_, ?_⟩ <;>
    cases htp : (match file.thumbnail_path with
      | some tp => tp != ""
      | none => false) <;>
    simp [countEngine, htp]


/-- When the size-300 default-thumbnail shortcut fires, `generateThumbnail`
serves the recorded thumbnail file with zero engine invocations and leaves
the filesystem unchanged, so a repeated identical call returns the very same
outcome. -/
theorem thumbnail_shortcut_idempotent
    (db : List FileRec) (uid fid : Nat) (size quality : Option String)
    (st : FS) (file : FileRec) (src : Img) (s q : JVal) (tp : String)
    (hs : parseWithDefault size 300 = s) (hq : parseWithDefault quality 80 = q)
    (h1 : (jsLt s 50 || jsGt s 1000) = false)
    (h2 : (jsLt q 1 || jsGt q 100) = false)
    (hfind : findById db fid uid = some file) (htype : file.file_type = "image")
    (hsrc : st.read file.path = some src)
    (hftp : file.thumbnail_path = some tp)
    (hby : defaultThumbHit st file s = true) :
    generateThumbnail db uid fid size quality st =
      ⟨[.dbLookup, .fsCheck file.path, .fsCheck tp], sendFileR st tp, st⟩ ∧
    countEngine [Ev.dbLookup, .fsCheck file.path, .fsCheck tp] = 0 ∧
    generateThumbnail db uid fid size quality
        (generateThumbnail db uid fid size quality st).fs =
      generateThumbnail db uid fid size quality st := by
  have ht : (file.file_type != "image") = false := by simp [htype]
  have hby1 : defaultThumbHit st file s = true := hby
  have htne : (tp != "") = true := by
    simp only [defaultThumbHit, hftp, Bool.and_eq_true] at hby1
    exact hby1.1.1
  have hrun : generateThumbnail db uid fid size quality st =
      ⟨[.dbLookup, .fsCheck file.path, .fsCheck tp], sendFileR st tp, st⟩ := by
    simp only [generateThumbnail, hs, hq, h1, h2, hfind, ht, hsrc, hftp, hby,
      Bool.false_eq_true, if_false, if_true, htne, Option.getD_some]
    simp
  refine ⟨hrun, by simp [countEngine], ?_⟩
  have hfs : (generateThumbnail db uid fid size quality st).fs = st := by rw [hrun]
  rw [hfs]


/-- C1 amended: cache idempotence of derive, per operation.  For every valid
resize, convert, crop, or thumbnail request (thumbnail taken off the size-300
default-thumbnail shortcut) on an initially uncached asset whose first call
succeeds, the first call invokes the engine exactly once and the second
identical call is a pure cache hit with zero engine invocations, returning
the byte-identical derivative; and when the size-300 shortcut fires, both
calls perform zero engine invocations and return the identical default
thumbnail, the filesystem never changing. -/
theorem transform_cache_idempotent_amended :
    (∀ (db : List FileRec) (uid fid : Nat) (width height quality format : Option String)
      (st : FS) (file : FileRec) (src b : Img) (w h q : JVal) (ext cd cp : String)
      (sp : EncodeSpec),
      (!truthyOpt width && !truthyOpt height) = false →
      parseOptParam width = w → parseOptParam height = h →
      parseWithDefault quality 80 = q →
      ((jsTruthy w && (jsLt w 1 || jsGt w 4096)) ||
        (jsTruthy h && (jsLt h 1 || jsGt h 4096))) = false →
      (jsLt q 1 || jsGt q 100) = false →
      findById db fid uid = some file → file.file_type = "image" →
      st.read file.path = some src →
      (if truthyOpt format then format.getD "" else "jpeg") = ext →
      pathJoin (dirnameOf file.path) "cache" = cd →
      pathJoin cd (resizeCacheName (stemOf file.filename) w h q ext) = cp →
      EncodeSpec.mk (if jsTruthy w || jsTruthy h then .inside w h else .pass)
        (resizeFmt format) (some q) = sp →
      st.read cp = none → sharpRun src sp = .ok b →
      resizeImage db uid fid width height quality format st =
        ⟨[.dbLookup, .fsCheck file.path, .mkdir cd, .cacheCheck cp, .engine sp],
          .file cp b, (st.ensureDir cd).write cp b⟩ ∧
      resizeImage db uid fid width height quality format ((st.ensureDir cd).write cp b) =
        ⟨[.dbLookup, .fsCheck file.path, .mkdir cd, .cacheCheck cp],
          .file cp b, (st.ensureDir cd).write cp b⟩ ∧
      countEngine [Ev.dbLookup, .fsCheck file.path, .mkdir cd, .cacheCheck cp,
        .engine sp] = 1 ∧
      countEngine [Ev.dbLookup, .fsCheck file.path, .mkdir cd, .cacheCheck cp] = 0) ∧
    (∀ (db : List FileRec) (uid fid : Nat) (f : String) (quality : Option String)
      (st : FS) (file : FileRec) (src b : Img) (q : JVal) (cd cp : String)
      (sp : EncodeSpec),
      f ≠ "" →
      (!(["jpeg", "jpg", "png", "webp", "gif"].contains (toLowerS f))) = false →
      parseWithDefault quality 80 = q →
      (jsLt q 1 || jsGt q 100) = false →
      findById db fid uid = some file → file.file_type = "image" →
      st.read file.path = some src →
      pathJoin (dirnameOf file.path) "cache" = cd →
      pathJoin cd (convertCacheName (stemOf file.filename) q f) = cp →
      EncodeSpec.mk .pass (convertFmt f).1
        (if (convertFmt f).2 then some q else none) = sp →
      st.read cp = none → sharpRun src sp = .ok b →
      convertImage db uid fid (some f) quality st =
        ⟨[.dbLookup, .fsCheck file.path, .mkdir cd, .cacheCheck cp, .engine sp],
          .file cp b, (st.ensureDir cd).write cp b⟩ ∧
      convertImage db uid fid (some f) quality ((st.ensureDir cd).write cp b) =
        ⟨[.dbLookup, .fsCheck file.path, .mkdir cd, .cacheCheck cp],
          .file cp b, (st.ensureDir cd).write cp b⟩ ∧
      countEngine [Ev.dbLookup, .fsCheck file.path, .mkdir cd, .cacheCheck cp,
        .engine sp] = 1 ∧
      countEngine [Ev.dbLookup, .fsCheck file.path, .mkdir cd, .cacheCheck cp] = 0) ∧
    (∀ (db : List FileRec) (uid fid : Nat) (x y width height quality : Option String)
      (st : FS) (file : FileRec) (src b : Img) (q : JVal) (cd cp : String)
      (sp : EncodeSpec),
      (!truthyOpt x || !truthyOpt y || !truthyOpt width || !truthyOpt height) = false →
      (jsLt (jsParseInt (x.getD "")) 0 || jsLt (jsParseInt (y.getD "")) 0 ||
        jsLt (jsParseInt (width.getD "")) 1 ||
        jsLt (jsParseInt (height.getD "")) 1) = false →
      parseWithDefault quality 80 = q →
      (jsLt q 1 || jsGt q 100) = false →
      findById db fid uid = some file → file.file_type = "image" →
      st.read file.path = some src →
      pathJoin (dirnameOf file.path) "cache" = cd →
      pathJoin cd (cropCacheName (stemOf file.filename) (jsParseInt (x.getD ""))
        (jsParseInt (y.getD "")) (jsParseInt (width.getD ""))
        (jsParseInt (height.getD "")) q) = cp →
      EncodeSpec.mk (.cut (jsParseInt (x.getD "")) (jsParseInt (y.getD ""))
        (jsParseInt (width.getD "")) (jsParseInt (height.getD ""))) .jpeg (some q) = sp →
      st.read cp = none → sharpRun src sp = .ok b →
      cropImage db uid fid x y width height quality st =
        ⟨[.dbLookup, .fsCheck file.path, .mkdir cd, .cacheCheck cp, .engine sp],
          .file cp b, (st.ensureDir cd).write cp b⟩ ∧
      cropImage db uid fid x y width height quality ((st.ensureDir cd).write cp b) =
        ⟨[.dbLookup, .fsCheck file.path, .mkdir cd, .cacheCheck cp],
          .file cp b, (st.ensureDir cd).write cp b⟩ ∧
      countEngine [Ev.dbLookup, .fsCheck file.path, .mkdir cd, .cacheCheck cp,
        .engine sp] = 1 ∧
      countEngine [Ev.dbLookup, .fsCheck file.path, .mkdir cd, .cacheCheck cp] = 0) ∧
    (∀ (db : List FileRec) (uid fid : Nat) (size quality : Option String)
      (st : FS) (file : FileRec) (src b : Img) (s q : JVal) (cd cp : String),
      parseWithDefault size 300 = s → parseWithDefault quality 80 = q →
      (jsLt s 50 || jsGt s 1000) = false →
      (jsLt q 1 || jsGt q 100) = false →
      findById db fid uid = some file → file.file_type = "image" →
      st.read file.path = some src →
      defaultThumbHit st file s = false →
      defaultThumbHit ((st.ensureDir cd).write cp b) file s = false →
      pathJoin (dirnameOf file.path) "cache" = cd →
      pathJoin cd (thumbCacheName (stemOf file.filename) s q) = cp →
      st.read cp = none →
      sharpRun src ⟨.cover s, .jpeg, some q⟩ = .ok b →
      generateThumbnail db uid fid size quality st =
        ⟨([.dbLookup, .fsCheck file.path] ++
            (if (match file.thumbnail_path with
              | some tp => tp != ""
              | none => false) then [Ev.fsCheck (file.thumbnail_path.getD "")] else []) ++
            [.mkdir cd, .cacheCheck cp]) ++ [.engine ⟨.cover s, .jpeg, some q⟩],
          .file cp b, (st.ensureDir cd).write cp b⟩ ∧
      generateThumbnail db uid fid size quality ((st.ensureDir cd).write cp b) =
        ⟨[.dbLookup, .fsCheck file.path] ++
            (if (match file.thumbnail_path with
              | some tp => tp != ""
              | none => false) then [Ev.fsCheck (file.thumbnail_path.getD "")] else []) ++
            [.mkdir cd, .cacheCheck cp],
          .file cp b, (st.ensureDir cd).write cp b⟩ ∧
      countEngine (([.dbLookup, .fsCheck file.path] ++
        (if (match file.thumbnail_path with
          | some tp => tp != ""
          | none => false) then [Ev.fsCheck (file.thumbnail_path.getD "")] else []) ++
        [.mkdir cd, .cacheCheck cp]) ++ [.engine ⟨.cover s, .jpeg, some q⟩]) = 1 ∧
      countEngine ([Ev.dbLookup, .fsCheck file.path] ++
        (if (match file.thumbnail_path with
          | some tp => tp != ""
          | none => false) then [Ev.fsCheck (file.thumbnail_path.getD "")] else []) ++
        [.mkdir cd, .cacheCheck cp]) = 0) ∧
    (∀ (db : List FileRec) (uid fid : Nat) (size quality : Option String)
      (st : FS) (file : FileRec) (src : Img) (s q : JVal) (tp : String),
      parseWithDefault size 300 = s → parseWithDefault quality 80 = q →
      (jsLt s 50 || jsGt s 1000) = false →
      (jsLt q 1 || jsGt q 100) = false →
      findById db fid uid = some file → file.file_type = "image" →
      st.read file.path = some src →
      file.thumbnail_path = some tp →
      defaultThumbHit st file s = true →
      generateThumbnail db uid fid size quality st =
        ⟨[.dbLookup, .fsCheck file.path, .fsCheck tp], sendFileR st tp, st⟩ ∧
      countEngine [Ev.dbLookup, .fsCheck file.path, .fsCheck tp] = 0 ∧
      generateThumbnail db uid fid size quality
          (generateThumbnail db uid fid size quality st).fs =
        generateThumbnail db uid fid size quality st) := by
  refine ⟨?_, ?_, ?_, ?_, ?_⟩
  · intro db uid fid width height quality format st file src b w h q ext cd cp sp
      h1 hpw hph hpq h2 h3 hfind htype hsrc hext hcd hcp hsp huncached hrun
    exact derive_cache_idempotent db uid fid width height quality format st file src b
      w h q ext cd cp sp h1 hpw hph hpq h2 h3 hfind htype hsrc hext hcd hcp hsp
      huncached hrun
  · intro db uid fid f quality st file src b q cd cp sp
      hf hsupp hpq h3 hfind htype hsrc hcd hcp hsp huncached hrun
    exact convert_cache_idempotent db uid fid f quality st file src b q cd cp sp
      hf hsupp hpq h3 hfind htype hsrc hcd hcp hsp huncached hrun
  · intro db uid fid x y width height quality st file src b q cd cp sp
      h1 h2 hpq h3 hfind htype hsrc hcd hcp hsp huncached hrun
    exact crop_cache_idempotent db uid fid x y width height quality st file src b q
      cd cp sp h1 h2 hpq h3 hfind htype hsrc hcd hcp hsp huncached hrun
  · intro db uid fid size quality st file src b s q cd cp
      hs hq h1 h2 hfind htype hsrc hby hby2 hcd hcp huncached hrun
    exact thumbnail_cache_idempotent db uid fid size quality st file src b s q cd cp
      hs hq h1 h2 hfind htype hsrc hby hby2 hcd hcp huncached hrun
  · intro db uid fid size quality st file src s q tp
      hs hq h1 h2 hfind htype hsrc hftp hby
    exact thumbnail_shortcut_idempotent db uid fid size quality st file src s q tp
      hs hq h1 h2 hfind htype hsrc hftp hby


/-- C1 counterexample: a size-300 thumbnail request on an asset whose
upload-time default thumbnail is on disk is a valid transform request on an
initially uncached asset (the cache key is absent), yet the first call
performs zero engine invocations - not exactly one - because the controller
short-circuits to the default thumbnail file; the repeated call returns the
same outcome. -/
theorem cache_idempotence_counterexample :
    stP.read "/up/7/cache/pic_thumb_300x300_q80.jpg" = none ∧
    (generateThumbnail dbW 7 3 (some "300") none stP).resp =
      .file "/up/7/pic_thumb.jpg"
        ⟨300, 150, Nat.pair 5 (specCode ⟨.inside (.num 300) (.num 300), .jpeg,
          some (.num 80)⟩)⟩ ∧
    countEngine (generateThumbnail dbW 7 3 (some "300") none stP).trace = 0 ∧
    (generateThumbnail dbW 7 3 (some "300") none
        (generateThumbnail dbW 7 3 (some "300") none stP).fs) =
      generateThumbnail dbW 7 3 (some "300") none stP :=
  ⟨by decide, by decide, by decide, by decide⟩


/-- Witness for the amended C1: concrete second-call cache hits for resize,
convert, crop and thumbnail on the sample asset, and the shortcut serving of
the default thumbnail. -/
theorem transform_cache_idempotent_amended_witness :
    resizeImage dbW 7 1 (some "800") none none none
        ((stW.ensureDir "/up/7/cache").write "/up/7/cache/photo_800xauto_q80.jpeg"
          ⟨600, 300, Nat.pair 5 (specCode ⟨.inside (.num 800) .null, .jpeg, some (.num 80)⟩)⟩) =
      ⟨[.dbLookup, .fsCheck "/up/7/photo.jpg", .mkdir "/up/7/cache",
          .cacheCheck "/up/7/cache/photo_800xauto_q80.jpeg"],
        .file "/up/7/cache/photo_800xauto_q80.jpeg"
          ⟨600, 300, Nat.pair 5 (specCode ⟨.inside (.num 800) .null, .jpeg, some (.num 80)⟩)⟩,
        (stW.ensureDir "/up/7/cache").write "/up/7/cache/photo_800xauto_q80.jpeg"
          ⟨600, 300, Nat.pair 5 (specCode ⟨.inside (.num 800) .null, .jpeg, some (.num 80)⟩)⟩⟩ ∧
    convertImage dbW 7 1 (some "png") none
        ((stW.ensureDir "/up/7/cache").write "/up/7/cache/photo_converted_q80.png"
          ⟨600, 300, Nat.pair 5 (specCode ⟨.pass, .png, some (.num 80)⟩)⟩) =
      ⟨[.dbLookup, .fsCheck "/up/7/photo.jpg", .mkdir "/up/7/cache",
          .cacheCheck "/up/7/cache/photo_converted_q80.png"],
        .file "/up/7/cache/photo_converted_q80.png"
          ⟨600, 300, Nat.pair 5 (specCode ⟨.pass, .png, some (.num 80)⟩)⟩,
        (stW.ensureDir "/up/7/cache").write "/up/7/cache/photo_converted_q80.png"
          ⟨600, 300, Nat.pair 5 (specCode ⟨.pass, .png, some (.num 80)⟩)⟩⟩ ∧
    cropImage dbW 7 1 (some "0") (some "0") (some "100") (some "100") none
        ((stW.ensureDir "/up/7/cache").write "/up/7/cache/photo_crop_0_0_100_100_q80.jpg"
          ⟨100, 100, Nat.pair 5 (specCode ⟨.cut (.num 0) (.num 0) (.num 100) (.num 100),
            .jpeg, some (.num 80)⟩)⟩) =
      ⟨[.dbLookup, .fsCheck "/up/7/photo.jpg", .mkdir "/up/7/cache",
          .cacheCheck "/up/7/cache/photo_crop_0_0_100_100_q80.jpg"],
        .file "/up/7/cache/photo_crop_0_0_100_100_q80.jpg"
          ⟨100, 100, Nat.pair 5 (specCode ⟨.cut (.num 0) (.num 0) (.num 100) (.num 100),
            .jpeg, some (.num 80)⟩)⟩,
        (stW.ensureDir "/up/7/cache").write "/up/7/cache/photo_crop_0_0_100_100_q80.jpg"
          ⟨100, 100, Nat.pair 5 (specCode ⟨.cut (.num 0) (.num 0) (.num 100) (.num 100),
            .jpeg, some (.num 80)⟩)⟩⟩ ∧
    generateThumbnail dbW 7 1 (some "400") none
        ((stW.ensureDir "/up/7/cache").write "/up/7/cache/photo_thumb_400x400_q80.jpg"
          ⟨400, 400, Nat.pair 5 (specCode ⟨.cover (.num 400), .jpeg, some (.num 80)⟩)⟩) =
      ⟨[.dbLookup, .fsCheck "/up/7/photo.jpg", .mkdir "/up/7/cache",
          .cacheCheck "/up/7/cache/photo_thumb_400x400_q80.jpg"],
        .file "/up/7/cache/photo_thumb_400x400_q80.jpg"
          ⟨400, 400, Nat.pair 5 (specCode ⟨.cover (.num 400), .jpeg, some (.num 80)⟩)⟩,
        (stW.ensureDir "/up/7/cache").write "/up/7/cache/photo_thumb_400x400_q80.jpg"
          ⟨400, 400, Nat.pair 5 (specCode ⟨.cover (.num 400), .jpeg, some (.num 80)⟩)⟩⟩ ∧
    generateThumbnail dbW 7 3 (some "300") none stP =
      ⟨[.dbLookup, .fsCheck "/up/7/pic.jpg", .fsCheck "/up/7/pic_thumb.jpg"],
        sendFileR stP "/up/7/pic_thumb.jpg", stP⟩ :=
  ⟨(transform_cache_idempotent_amended.1 dbW 7 1 (some "800") none none none stW fileW
      imgW ⟨600, 300, Nat.pair 5 (specCode ⟨.inside (.num 800) .null, .jpeg, some (.num 80)⟩)⟩
      (.num 800) .null (.num 80) "jpeg" "/up/7/cache"
      "/up/7/cache/photo_800xauto_q80.jpeg"
      ⟨.inside (.num 800) .null, .jpeg, some (.num 80)⟩
      (by decide) (by decide) (by decide) (by decide) (by decide) (by decide) (by decide)
      (by decide) (by decide) (by decide) (by decide) (by decide) (by decide) (by decide)
      rfl).2.1,
    (transform_cache_idempotent_amended.2.1 dbW 7 1 "png" none stW fileW imgW
      ⟨600, 300, Nat.pair 5 (specCode ⟨.pass, .png, some (.num 80)⟩)⟩
      (.num 80) "/up/7/cache" "/up/7/cache/photo_converted_q80.png"
      ⟨.pass, .png, some (.num 80)⟩
      (by decide) (by decide) (by decide) (by decide) (by decide) (by decide) (by decide)
      (by decide) (by decide) rfl (by decide) rfl).2.1,
    (transform_cache_idempotent_amended.2.2.1 dbW 7 1 (some "0") (some "0") (some "100")
      (some "100") none stW fileW imgW
      ⟨100, 100, Nat.pair 5 (specCode ⟨.cut (.num 0) (.num 0) (.num 100) (.num 100),
        .jpeg, some (.num 80)⟩)⟩
      (.num 80) "/up/7/cache" "/up/7/cache/photo_crop_0_0_100_100_q80.jpg"
      ⟨.cut (.num 0) (.num 0) (.num 100) (.num 100), .jpeg, some (.num 80)⟩
      (by decide) (by decide) (by decide) (by decide) (by decide) (by decide) (by decide)
      (by decide) (by decide) rfl (by decide) rfl).2.1,
    (transform_cache_idempotent_amended.2.2.2.1 dbW 7 1 (some "400") none stW fileW imgW
      ⟨400, 400, Nat.pair 5 (specCode ⟨.cover (.num 400), .jpeg, some (.num 80)⟩)⟩
      (.num 400) (.num 80) "/up/7/cache" "/up/7/cache/photo_thumb_400x400_q80.jpg"
      (by decide) (by decide) (by decide) (by decide) (by decide) (by decide) (by decide)
      (by decide) (by decide) (by decide) (by decide) (by decide) rfl).2.1,
    (transform_cache_idempotent_amended.2.2.2.2 dbW 7 3 (some "300") none stP fileP imgW
      (.num 300) (.num 80) "/up/7/pic_thumb.jpg"
      (by decide) (by decide) (by decide) (by decide) (by decide) (by decide) (by decide)
      (by decide) (by decide)).1⟩


/-- C3 amended: no hidden state except the documented size-300
default-thumbnail shortcut.  For every resize, convert, crop, thumbnail
(parsed size not 300) or info request, any two filesystem states holding the
same source bytes for the asset (and, for the derivative operations, no
cached derivative under the key) produce identical responses - in particular
the response does not depend on whether the upload-time default thumbnail
file exists on disk. -/
theorem no_hidden_state_amended :
    (∀ (db : List FileRec) (uid fid : Nat) (width height quality format : Option String)
      (st1 st2 : FS) (file : FileRec) (src : Img) (w h q : JVal) (ext cd cp : String)
      (sp : EncodeSpec),
      (!truthyOpt width && !truthyOpt height) = false →
      parseOptParam width = w → parseOptParam height = h →
      parseWithDefault quality 80 = q →
      ((jsTruthy w && (jsLt w 1 || jsGt w 4096)) ||
        (jsTruthy h && (jsLt h 1 || jsGt h 4096))) = false →
      (jsLt q 1 || jsGt q 100) = false →
      findById db fid uid = some file → file.file_type = "image" →
      st1.read file.path = some src → st2.read file.path = some src →
      (if truthyOpt format then format.getD "" else "jpeg") = ext →
      pathJoin (dirnameOf file.path) "cache" = cd →
      pathJoin cd (resizeCacheName (stemOf file.filename) w h q ext) = cp →
      EncodeSpec.mk (if jsTruthy w || jsTruthy h then .inside w h else .pass)
        (resizeFmt format) (some q) = sp →
      st1.read cp = none → st2.read cp = none →
      (resizeImage db uid fid width height quality format st1).resp =
        (resizeImage db uid fid width height quality format st2).resp) ∧
    (∀ (db : List FileRec) (uid fid : Nat) (f : String) (quality : Option String)
      (st1 st2 : FS) (file : FileRec) (src : Img) (q : JVal) (cd cp : String)
      (sp : EncodeSpec),
      f ≠ "" →
      (!(["jpeg", "jpg", "png", "webp", "gif"].contains (toLowerS f))) = false →
      parseWithDefault quality 80 = q →
      (jsLt q 1 || jsGt q 100) = false →
      findById db fid uid = some file → file.file_type = "image" →
      st1.read file.path = some src → st2.read file.path = some src →
      pathJoin (dirnameOf file.path) "cache" = cd →
      pathJoin cd (convertCacheName (stemOf file.filename) q f) = cp →
      EncodeSpec.mk .pass (convertFmt f).1
        (if (convertFmt f).2 then some q else none) = sp →
      st1.read cp = none → st2.read cp = none →
      (convertImage db uid fid (some f) quality st1).resp =
        (convertImage db uid fid (some f) quality st2).resp) ∧
    (∀ (db : List FileRec) (uid fid : Nat) (x y width height quality : Option String)
      (st1 st2 : FS) (file : FileRec) (src : Img) (q : JVal) (cd cp : String)
      (sp : EncodeSpec),
      (!truthyOpt x || !truthyOpt y || !truthyOpt width || !truthyOpt height) = false →
      (jsLt (jsParseInt (x.getD "")) 0 || jsLt (jsParseInt (y.getD "")) 0 ||
        jsLt (jsParseInt (width.getD "")) 1 ||
        jsLt (jsParseInt (height.getD "")) 1) = false →
      parseWithDefault quality 80 = q →
      (jsLt q 1 || jsGt q 100) = false →
      findById db fid uid = some file → file.file_type = "image" →
      st1.read file.path = some src → st2.read file.path = some src →
      pathJoin (dirnameOf file.path) "cache" = cd →
      pathJoin cd (cropCacheName (stemOf file.filename) (jsParseInt (x.getD ""))
        (jsParseInt (y.getD "")) (jsParseInt (width.getD ""))
        (jsParseInt (height.getD "")) q) = cp →
      EncodeSpec.mk (.cut (jsParseInt (x.getD "")) (jsParseInt (y.getD ""))
        (jsParseInt (width.getD "")) (jsParseInt (height.getD ""))) .jpeg (some q) = sp →
      st1.read cp = none → st2.read cp = none →
      (cropImage db uid fid x y width height quality st1).resp =
        (cropImage db uid fid x y width height quality st2).resp) ∧
    (∀ (db : List FileRec) (uid fid : Nat) (size quality : Option String)
      (st1 st2 : FS) (file : FileRec) (src : Img) (s q : JVal) (cd cp : String),
      parseWithDefault size 300 = s → parseWithDefault quality 80 = q →
      s ≠ .num 300 →
      (jsLt s 50 || jsGt s 1000) = false →
      (jsLt q 1 || jsGt q 100) = false →
      findById db fid uid = some file → file.file_type = "image" →
      st1.read file.path = some src → st2.read file.path = some src →
      pathJoin (dirnameOf file.path) "cache" = cd →
      pathJoin cd (thumbCacheName (stemOf file.filename) s q) = cp →
      st1.read cp = none → st2.read cp = none →
      (generateThumbnail db uid fid size quality st1).resp =
        (generateThumbnail db uid fid size quality st2).resp) ∧
    (∀ (db : List FileRec) (uid fid : Nat) (st1 st2 : FS) (file : FileRec) (src : Img),
      findById db fid uid = some file → file.file_type = "image" →
      st1.read file.path = some src → st2.read file.path = some src →
      (getImageInfo db uid fid st1).resp = (getImageInfo db uid fid st2).resp) := by
  refine ⟨?_, ?_, ?_, ?_, ?_⟩
  · intro db uid fid width height quality format st1 st2 file src w h q ext cd cp sp
      h1 hpw hph hpq h2 h3 hfind htype hsrc1 hsrc2 hext hcd hcp hsp hu1 hu2
    rw [resizeImage_miss db uid fid width height quality format st1 file src w h q ext
        cd cp sp h1 hpw hph hpq h2 h3 hfind htype hsrc1 hext hcd hcp hsp hu1,
      resizeImage_miss db uid fid width height quality format st2 file src w h q ext
        cd cp sp h1 hpw hph hpq h2 h3 hfind htype hsrc2 hext hcd hcp hsp hu2]
    cases sharpRun src sp <;> rfl
  · intro db uid fid f quality st1 st2 file src q cd cp sp
      hf hsupp hpq h3 hfind htype hsrc1 hsrc2 hcd hcp hsp hu1 hu2
    rw [convertImage_miss db uid fid f quality st1 file src q cd cp sp hf hsupp hpq h3
        hfind htype hsrc1 hcd hcp hsp hu1,
      convertImage_miss db uid fid f quality st2 file src q cd cp sp hf hsupp hpq h3
        hfind htype hsrc2 hcd hcp hsp hu2]
    cases sharpRun src sp <;> rfl
  · intro db uid fid x y width height quality st1 st2 file src q cd cp sp
      h1 h2 hpq h3 hfind htype hsrc1 hsrc2 hcd hcp hsp hu1 hu2
    rw [cropImage_miss db uid fid x y width height quality st1 file src q cd cp sp
        h1 h2 hpq h3 hfind htype hsrc1 hcd hcp hsp hu1,
      cropImage_miss db uid fid x y width height quality st2 file src q cd cp sp
        h1 h2 hpq h3 hfind htype hsrc2 hcd hcp hsp hu2]
    cases sharpRun src sp <;> rfl
  · intro db uid fid size quality st1 st2 file src s q cd cp
      hs hq hsn h1 h2 hfind htype hsrc1 hsrc2 hcd hcp hu1 hu2
    exact thumbnail_no_hidden_state_amended db uid fid size quality st1 st2 file src
      s q cd cp hs hq hsn h1 h2 hfind htype hsrc1 hsrc2 hcd hcp hu1 hu2
  · intro db uid fid st1 st2 file src hfind htype hsrc1 hsrc2
    have ht : (file.file_type != "image") = false := by simp [htype]
    simp only [getImageInfo, hfind, ht, Bool.false_eq_true, if_false, hsrc1, hsrc2]
    split <;> rfl


/-- Witness for the amended C3: the five operations answer identically on
the sample asset with and without the default-thumbnail file on disk. -/
theorem no_hidden_state_amended_witness :
    (resizeImage dbW 7 3 (some "800") none none none stW).resp =
      (resizeImage dbW 7 3 (some "800") none none none stP).resp ∧
    (convertImage dbW 7 3 (some "png") none stW).resp =
      (convertImage dbW 7 3 (some "png") none stP).resp ∧
    (cropImage dbW 7 3 (some "0") (some "0") (some "100") (some "100") none stW).resp =
      (cropImage dbW 7 3 (some "0") (some "0") (some "100") (some "100") none stP).resp ∧
    (generateThumbnail dbW 7 3 (some "400") none stW).resp =
      (generateThumbnail dbW 7 3 (some "400") none stP).resp ∧
    (getImageInfo dbW 7 3 stW).resp = (getImageInfo dbW 7 3 stP).resp :=
  ⟨no_hidden_state_amended.1 dbW 7 3 (some "800") none none none stW stP fileP imgW
      (.num 800) .null (.num 80) "jpeg" "/up/7/cache"
      "/up/7/cache/pic_800xauto_q80.jpeg"
      ⟨.inside (.num 800) .null, .jpeg, some (.num 80)⟩
      (by decide) (by decide) (by decide) (by decide) (by decide) (by decide) (by decide)
      (by decide) (by decide) (by decide) (by decide) (by decide) (by decide) rfl
      (by decide) (by decide),
    no_hidden_state_amended.2.1 dbW 7 3 "png" none stW stP fileP imgW (.num 80)
      "/up/7/cache" "/up/7/cache/pic_converted_q80.png"
      ⟨.pass, .png, some (.num 80)⟩
      (by decide) (by decide) (by decide) (by decide) (by decide) (by decide) (by decide)
      (by decide) (by decide) (by decide) rfl (by decide) (by decide),
    no_hidden_state_amended.2.2.1 dbW 7 3 (some "0") (some "0") (some "100") (some "100")
      none stW stP fileP imgW (.num 80) "/up/7/cache"
      "/up/7/cache/pic_crop_0_0_100_100_q80.jpg"
      ⟨.cut (.num 0) (.num 0) (.num 100) (.num 100), .jpeg, some (.num 80)⟩
      (by decide) (by decide) (by decide) (by decide) (by decide) (by decide) (by decide)
      (by decide) (by decide) (by decide) rfl (by decide) (by decide),
    no_hidden_state_amended.2.2.2.1 dbW 7 3 (some "400") none stW stP fileP imgW
      (.num 400) (.num 80) "/up/7/cache" "/up/7/cache/pic_thumb_400x400_q80.jpg"
      (by decide) (by decide) (by decide) (by decide) (by decide) (by decide) (by decide)
      (by decide) (by decide) (by decide) (by decide) (by decide) (by decide),
    no_hidden_state_amended.2.2.2.2 dbW 7 3 stW stP fileP imgW
      (by decide) (by decide) (by decide) (by decide)⟩

end Zot
